import Mathlib

/-!
Verification of the RDM core of the esp_dmx driver against its
natural-language specification.  The definitions below are shallow
embeddings of the C functions in the repository sources (`rdm/utils.c`
and the legacy `esp_rdm.c` files); machine integers are modelled as
`Nat` with explicit `% 2^w` wherever C overflow or truncation can
occur.  Constants whose defining headers (`rdm/types.h`, `dmx/types.h`)
are not part of the provided sources carry the values mandated by the
ANSI E1.20 wire protocol; no claim below depends on the particular
numerals, only on their distinctness.
-/

set_option maxRecDepth 100000

set_option maxHeartbeats 2000000

/-- Wire constant: discovery-response preamble byte (`RDM_PREAMBLE`). -/

def RDM_PREAMBLE : Nat := 0xfe

/-- Wire constant: discovery-response delimiter byte (`RDM_DELIMITER`). -/

def RDM_DELIMITER : Nat := 0xaa

/-- Response type `RDM_RESPONSE_TYPE_ACK` (E1.20 wire value). -/

def RDM_RESPONSE_TYPE_ACK : Nat := 0x00

/-- Response type `RDM_RESPONSE_TYPE_ACK_TIMER` (E1.20 wire value). -/

def RDM_RESPONSE_TYPE_ACK_TIMER : Nat := 0x01

/-- Response type `RDM_RESPONSE_TYPE_NACK_REASON` (E1.20 wire value). -/

def RDM_RESPONSE_TYPE_NACK_REASON : Nat := 0x02

/-- Response type `RDM_RESPONSE_TYPE_ACK_OVERFLOW` (E1.20 wire value). -/

def RDM_RESPONSE_TYPE_ACK_OVERFLOW : Nat := 0x03

/-- Driver-internal marker `RDM_RESPONSE_TYPE_NONE` (not a wire value). -/

def RDM_RESPONSE_TYPE_NONE : Nat := 0xfe

/-- Driver-internal marker `RDM_RESPONSE_TYPE_INVALID` (not a wire value). -/

def RDM_RESPONSE_TYPE_INVALID : Nat := 0xff

/-- Parameter id `RDM_PID_DISC_UNIQUE_BRANCH` (E1.20). -/

def RDM_PID_DISC_UNIQUE_BRANCH : Nat := 0x0001

/-- Command class `RDM_CC_DISC_COMMAND` (E1.20). -/

def RDM_CC_DISC_COMMAND : Nat := 0x10

/-- Command class `RDM_CC_GET_COMMAND` (E1.20). -/

def RDM_CC_GET_COMMAND : Nat := 0x20

/-- Command class `RDM_CC_SET_COMMAND` (E1.20). -/

def RDM_CC_SET_COMMAND : Nat := 0x30

/-- Error code `DMX_ERR_TIMEOUT`; any fixed nonzero value works, the code
only ever tests `packet.err` against `0` and against this constant. -/

def DMX_ERR_TIMEOUT : Nat := 1

/-- Root sub-device number `RDM_SUB_DEVICE_ROOT`. -/

def RDM_SUB_DEVICE_ROOT : Nat := 0

/-- Capacity `RDM_RESPONDER_PIDS_MAX` of the per-port parameter table
(Kconfig `RDM_RESPONDER_MAX_PARAMETERS`, default 16). -/

def RDM_RESPONDER_PIDS_MAX : Nat := 16

/-- Data type code `RDM_DS_ASCII` (E1.20). -/

def RDM_DS_ASCII : Nat := 0x03

/-- Modulus of the 32-bit `size_t` arithmetic of the target platform. -/

def SIZE_T_MOD : Nat := 4294967296

/-- A 48-bit RDM unique identifier, `rdm_uid_t`: a 16-bit manufacturer id
and a 32-bit device id (`rdm/types.h`, mirrored by `rdm/utils.h`). -/

structure RdmUid where
  man_id : Nat
  dev_id : Nat
deriving DecidableEq

/-- Embedding of `uid_is_eq` from `src/rdm/utils.h`. -/

def rdm_uid_is_eq (a b : RdmUid) : Bool :=
  a.man_id == b.man_id && a.dev_id == b.dev_id

/-- Embedding of `uid_is_broadcast` from `src/rdm/utils.h`. -/

def rdm_uid_is_broadcast (u : RdmUid) : Bool :=
  u.dev_id == 0xffffffff

/-- Embedding of `uid_is_null` from `src/rdm/utils.h`. -/

def rdm_uid_is_null (u : RdmUid) : Bool :=
  u.man_id == 0 && u.dev_id == 0

/-- Embedding of `uid_is_target` from `src/rdm/utils.h`: `uid` is targeted
by `al` when `al` is the all-ports broadcast, a matching manufacturer
broadcast, or equal to `uid`. -/

def rdm_uid_is_target (uid al : RdmUid) : Bool :=
  ((al.man_id == 0xffff || al.man_id == uid.man_id) && al.dev_id == 0xffffffff)
    || rdm_uid_is_eq uid al

/-- Embedding of the derivation step of `rdm_uid_get` (part_001 lines
66-72): copy the binding UID, then replace the final octet of `dev_id` by
`(uint8_t)dev_id + dmx_num` (8-bit wraparound), via `&= 0xffffff00` and
`|=`.  The lazy initialisation of the binding UID and the argument guard
are not part of the derivation itself; the binding UID is passed in. -/

def rdm_uid_get (binding : RdmUid) (dmx_num : Nat) : RdmUid :=
  let last_octet : Nat := (binding.dev_id % 256 + dmx_num) % 256
  { man_id := binding.man_id
    dev_id := (binding.dev_id &&& 0xffffff00) ||| last_octet }

/-- Uid derivation as the specification words it (spec §3, "device_uid =
binding_uid with last octet XOR'd by port index"); kept separate from the
source embedding `rdm_uid_get` so the two can be compared. -/

def rdm_uid_get_spec (binding : RdmUid) (dmx_num : Nat) : RdmUid :=
  { man_id := binding.man_id
    dev_id := (binding.dev_id &&& 0xffffff00) ||| ((binding.dev_id % 256) ^^^ dmx_num) }

/-- Byte `j` (little-endian, `j = 0` least significant) of a UID held in a
64-bit integer, as `((uint8_t *)&uid)[j]` reads it on the target. -/

def uidByte (uid j : Nat) : Nat := uid / 256 ^ j % 256

/-- Embedding of the checksum accumulation of `rdm_send_disc_response`
(part_001 lines 650-655): a `uint16_t` sum of each UID byte plus
`0xaa + 0x55`, taken from the most significant byte down. -/

def discChecksum (uid : Nat) : Nat :=
  [5, 4, 3, 2, 1, 0].foldl (fun s j => (s + uidByte uid j + (0xaa + 0x55)) % 65536) 0

/-- Embedding of the encoder of `rdm_send_disc_response` (part_001 lines
647-659): seven preamble bytes and the delimiter, then each UID byte from
most significant down emitted as the pair `(b | 0xaa, b | 0x55)`, then the
checksum's high and low bytes encoded the same way (each stored into a
`uint8_t`, hence the `% 256`).  The trailing bus I/O of the C function is
not part of the encoding. -/

def rdm_send_disc_response (uid : Nat) : List Nat :=
  let cs := discChecksum uid
  [RDM_PREAMBLE, RDM_PREAMBLE, RDM_PREAMBLE, RDM_PREAMBLE, RDM_PREAMBLE,
   RDM_PREAMBLE, RDM_PREAMBLE, RDM_DELIMITER,
   uidByte uid 5 ||| 0xaa, uidByte uid 5 ||| 0x55,
   uidByte uid 4 ||| 0xaa, uidByte uid 4 ||| 0x55,
   uidByte uid 3 ||| 0xaa, uidByte uid 3 ||| 0x55,
   uidByte uid 2 ||| 0xaa, uidByte uid 2 ||| 0x55,
   uidByte uid 1 ||| 0xaa, uidByte uid 1 ||| 0x55,
   uidByte uid 0 ||| 0xaa, uidByte uid 0 ||| 0x55,
   ((cs / 256) ||| 0xaa) % 256, ((cs / 256) ||| 0x55) % 256,
   (cs ||| 0xaa) % 256, (cs ||| 0x55) % 256]

/-- Preamble scan of `rdm_parse` (part_001 lines 581-587): the index of
the first delimiter byte among the first seven bytes, or 7. -/

def preambleLen (data : List Nat) : Nat :=
  (data.take 7).findIdx (fun b => b == RDM_DELIMITER)

/-- Decode of UID byte pair `j` in `rdm_parse` (part_001 lines 596-599):
even byte masked with `0x55`, odd byte masked with `0xaa`, ORed. -/

def discDecodedByte (resp : List Nat) (j : Nat) : Nat :=
  (resp.getD (2 * j) 0 &&& 0x55) ||| (resp.getD (2 * j + 1) 0 &&& 0xaa)

/-- The UID assembled by `rdm_parse`: pair 0 is the most significant byte
(the C loop stores pair `j` into `((uint8_t *)&uid)[5 - j]`). -/

def discDecodedUid (resp : List Nat) : Nat :=
  discDecodedByte resp 0 * 256 ^ 5 + discDecodedByte resp 1 * 256 ^ 4 +
  discDecodedByte resp 2 * 256 ^ 3 + discDecodedByte resp 3 * 256 ^ 2 +
  discDecodedByte resp 4 * 256 + discDecodedByte resp 5

/-- The `uint16_t` sum recomputed by `rdm_parse` over the six recovered
UID bytes, each plus `0xff`, in the order the C loop visits them. -/

def discSum (resp : List Nat) : Nat :=
  [0, 1, 2, 3, 4, 5].foldl (fun s j => (s + discDecodedByte resp j + 0xff) % 65536) 0

/-- The checksum recovered by `rdm_parse` from encoded bytes 12-15 of the
payload (high byte pair first, as the C loop writes
`((uint8_t *)&checksum)[1]` then `[0]`). -/

def discDecodedChecksum (resp : List Nat) : Nat :=
  ((resp.getD 12 0 &&& 0x55) ||| (resp.getD 13 0 &&& 0xaa)) * 256 +
  ((resp.getD 14 0 &&& 0x55) ||| (resp.getD 15 0 &&& 0xaa))

/-- Result of parsing a candidate discovery response. `invalid` covers
every path on which `rdm_parse` returns `false` without filling the
event's UID; `disc uid sum checksum` records the recovered UID, the
recomputed sum, and the decoded checksum, in which case the C function
returns `sum == checksum`. -/

inductive ParseOutcome where
  | invalid
  | disc (uid sum checksum : Nat)
deriving DecidableEq

/-- Embedding of the discovery-response branch of `rdm_parse` (part_001
lines 573-615): requires a first byte of `0xfe` or `0xaa` and more than 17
bytes, a delimiter ending a preamble of at most seven bytes, and at least
`preamble_len + 17` bytes in total.  The standard-frame branch (lines
616-637, first byte `0xcc`) is not modelled; no claim exercises it and
every input in the theorems below starts with `0xfe`. -/

def rdm_parse (data : List Nat) : ParseOutcome :=
  let size := data.length
  if (data.getD 0 0 == RDM_PREAMBLE || data.getD 0 0 == RDM_DELIMITER) && size > 17 then
    let pl := preambleLen data
    if data.getD pl 0 == RDM_DELIMITER && pl + 17 ≤ size then
      let resp := data.drop (pl + 1)
      ParseOutcome.disc (discDecodedUid resp) (discSum resp) (discDecodedChecksum resp)
    else ParseOutcome.invalid
  else ParseOutcome.invalid

/-- Boolean value `rdm_parse` hands back to its caller: `sum == checksum`
on the discovery path, `false` on every rejected input. -/

def rdm_parse_returns : ParseOutcome → Bool
  | ParseOutcome.invalid => false
  | ParseOutcome.disc _ s c => s == c

/-- RDM packet header, `rdm_header_t`: the fields `rdm_send_request` reads
or writes.  `response_type` shares its slot with `port_id` on the wire;
both are carried so one structure serves requests and responses. -/

structure RdmHeader where
  dest_uid : RdmUid
  src_uid : RdmUid
  tn : Nat
  port_id : Nat
  message_count : Nat
  sub_device : Nat
  cc : Nat
  pid : Nat
  pdl : Nat
  response_type : Nat
deriving DecidableEq

/-- Environment of one `rdm_send_request` call: the port number, the UID
`rdm_uid_get` yields for it, the outcomes of the mutex take and of
`dmx_wait_sent`, the `dmx_receive` packet error and size, and the result
of `dmx_read_rdm` (`none` when it returns `false`, i.e. a data or checksum
error; `some resp` with the decoded header otherwise). -/

structure SendEnv where
  dmx_num : Nat
  deviceUid : RdmUid
  mutexOk : Bool
  waitSentOk : Bool
  packetErr : Nat
  recvSize : Nat
  decode : Option RdmHeader
deriving DecidableEq

/-- Observable outcome of one `rdm_send_request` call: the boolean return
value, the `ack->type` written (`none` when the function returns before
touching `ack`), whether `dmx_receive` was called (`awaited`), whether the
request reached `dmx_send` (`placed`), the transaction number stamped into
the header, and the driver's stored transaction number afterwards. -/

structure SendResult where
  retval : Bool
  ackType : Option Nat
  awaited : Bool
  placed : Bool
  headerTn : Nat
  tnAfter : Nat
deriving DecidableEq

/-- Embedding of the header fix-ups of `rdm_send_request` (part_001 lines
407-419): default the port id to `dmx_num + 1`, default a null source UID
to the port's own UID, stamp the driver's transaction number, and zero the
message count. -/

def fixupHeader (tn0 : Nat) (env : SendEnv) (req : RdmHeader) : RdmHeader :=
  let req1 := if req.port_id = 0 then { req with port_id := env.dmx_num + 1 } else req
  let req2 := if rdm_uid_is_null req1.src_uid then { req1 with src_uid := env.deviceUid } else req1
  { req2 with tn := tn0, message_count := 0 }

/-- Embedding of the `response_expected` computation of `rdm_send_request`
(part_001 lines 421-424). -/

def responseExpected (req : RdmHeader) : Bool :=
  !rdm_uid_is_broadcast req.dest_uid ||
    (req.pid == RDM_PID_DISC_UNIQUE_BRANCH && req.cc == RDM_CC_DISC_COMMAND)

/-- Embedding of the response classification of `rdm_send_request`
(part_001 lines 482-500): a failed `dmx_read_rdm` or an out-of-range
response type or, unless the request PID was `DISC_UNIQUE_BRANCH`, any
header-field mismatch (the C test `header->cc != (resp.cc - 1)` is `int`
arithmetic, modelled on `Int`) yields `RDM_RESPONSE_TYPE_INVALID`;
otherwise the received response type is kept. -/

def classifyResponse (req : RdmHeader) (decoded : Option RdmHeader) : Nat :=
  match decoded with
  | none => RDM_RESPONSE_TYPE_INVALID
  | some resp =>
    if resp.response_type ≠ RDM_RESPONSE_TYPE_ACK ∧
        resp.response_type ≠ RDM_RESPONSE_TYPE_ACK_TIMER ∧
        resp.response_type ≠ RDM_RESPONSE_TYPE_NACK_REASON ∧
        resp.response_type ≠ RDM_RESPONSE_TYPE_ACK_OVERFLOW then
      RDM_RESPONSE_TYPE_INVALID
    else if req.pid ≠ RDM_PID_DISC_UNIQUE_BRANCH ∧
        ((req.cc : Int) ≠ (resp.cc : Int) - 1 ∨ req.pid ≠ resp.pid ∨ req.tn ≠ resp.tn ∨
          rdm_uid_is_target resp.src_uid req.dest_uid = false ∨
          rdm_uid_is_eq resp.dest_uid req.src_uid = false) then
      RDM_RESPONSE_TYPE_INVALID
    else resp.response_type

/-- Embedding of the control flow of `rdm_send_request` (part_001 lines
389-532).  A failed mutex take or `dmx_wait_sent` returns `0` before any
I/O and leaves `ack` untouched; otherwise the request is written and sent.
The driver's stored transaction number is the only part modelled from the
spec: "transaction number is taken from the port under its critical
section and post-incremented" after a request is "actually placed on the
wire" — the increment lives in `dmx_send`, whose source is not in the
provided files, so `tnAfter` is `(tn0 + 1) % 256` exactly when the send
happened.  Everything else follows the C source: a hard receive error
yields `ack.type = INVALID`, a zero-size receive yields `NONE`, a
broadcast without `DISC_UNIQUE_BRANCH` skips the receive and yields
`NONE`, and a received response is classified by `classifyResponse`; the
function returns `true` exactly when the classification is `ACK`. -/

def rdm_send_request (tn0 : Nat) (req0 : RdmHeader) (env : SendEnv) : SendResult :=
  if env.mutexOk = true then
    if env.waitSentOk = true then
      if responseExpected (fixupHeader tn0 env req0) = true then
        if env.packetErr ≠ 0 ∧ env.packetErr ≠ DMX_ERR_TIMEOUT then
          { retval := false, ackType := some RDM_RESPONSE_TYPE_INVALID, awaited := true,
            placed := true, headerTn := (fixupHeader tn0 env req0).tn,
            tnAfter := (tn0 + 1) % 256 }
        else if env.recvSize = 0 then
          { retval := false, ackType := some RDM_RESPONSE_TYPE_NONE, awaited := true,
            placed := true, headerTn := (fixupHeader tn0 env req0).tn,
            tnAfter := (tn0 + 1) % 256 }
        else
          { retval := classifyResponse (fixupHeader tn0 env req0) env.decode ==
              RDM_RESPONSE_TYPE_ACK,
            ackType := some (classifyResponse (fixupHeader tn0 env req0) env.decode),
            awaited := true, placed := true, headerTn := (fixupHeader tn0 env req0).tn,
            tnAfter := (tn0 + 1) % 256 }
      else
        { retval := false, ackType := some RDM_RESPONSE_TYPE_NONE, awaited := false,
          placed := true, headerTn := (fixupHeader tn0 env req0).tn,
          tnAfter := (tn0 + 1) % 256 }
    else
      { retval := false, ackType := none, awaited := false, placed := false,
        headerTn := (fixupHeader tn0 env req0).tn, tnAfter := tn0 }
  else
    { retval := false, ackType := none, awaited := false, placed := false,
      headerTn := (fixupHeader tn0 env req0).tn, tnAfter := tn0 }

/-- Driver transaction numbers over a sequence of `rdm_send_request`
calls: fold the stored transaction number through each call. -/

def runSends (tn0 : Nat) (steps : List (RdmHeader × SendEnv)) : Nat :=
  steps.foldl (fun t s => (rdm_send_request t s.1 s.2).tnAfter) tn0

/-- Validity of a received response type, as the specification's check 3
words it: one of `ACK`, `ACK_TIMER`, `NACK_REASON`, `ACK_OVERFLOW`. -/

def respTypeValid (resp : RdmHeader) : Prop :=
  resp.response_type = RDM_RESPONSE_TYPE_ACK ∨
  resp.response_type = RDM_RESPONSE_TYPE_ACK_TIMER ∨
  resp.response_type = RDM_RESPONSE_TYPE_NACK_REASON ∨
  resp.response_type = RDM_RESPONSE_TYPE_ACK_OVERFLOW

/-- Field matching between a request and a response, as the claim words
it: response command class is the request's plus one, PID and transaction
number agree, the response's destination is the request's source, and the
response's source matches the request's destination exactly or via a
broadcast alias. -/

def respFieldsMatch (req resp : RdmHeader) : Prop :=
  resp.cc = req.cc + 1 ∧ resp.pid = req.pid ∧ resp.tn = req.tn ∧
  rdm_uid_is_eq resp.dest_uid req.src_uid = true ∧
  rdm_uid_is_target resp.src_uid req.dest_uid = true

/-- Concrete unicast `GET` request used by the C1 and C3 theorems. -/

def reqW1 : RdmHeader :=
  { dest_uid := ⟨5, 6⟩, src_uid := ⟨7, 8⟩, tn := 0, port_id := 1, message_count := 0,
    sub_device := 0, cc := RDM_CC_GET_COMMAND, pid := 0x60, pdl := 0, response_type := 0 }

/-- Concrete well-formed `ACK` response to `reqW1` under `tn0 = 5`. -/

def respW1 : RdmHeader :=
  { dest_uid := ⟨7, 8⟩, src_uid := ⟨5, 6⟩, tn := 5, port_id := 0, message_count := 0,
    sub_device := 0, cc := 0x21, pid := 0x60, pdl := 0,
    response_type := RDM_RESPONSE_TYPE_ACK }

/-- Environment delivering `respW1` without errors. -/

def envW1 : SendEnv :=
  { dmx_num := 0, deviceUid := ⟨2, 3⟩, mutexOk := true, waitSentOk := true,
    packetErr := 0, recvSize := 26, decode := some respW1 }

/-- The same response with type `ACK_TIMER` instead of `ACK`. -/

def respX1 : RdmHeader := { respW1 with response_type := RDM_RESPONSE_TYPE_ACK_TIMER }

/-- Environment delivering `respX1` without errors. -/

def envX1 : SendEnv := { envW1 with decode := some respX1 }

/-- Broadcast variant of `reqW1` with a non-discovery PID. -/

def reqW4 : RdmHeader := { reqW1 with dest_uid := ⟨0xffff, 0xffffffff⟩ }

/-- One entry of a port's parameter table, `driver->rdm_cbs[i]`: the
descriptor (PID, data type, PDL capacity), the parameter storage pointer
(`none` models a NULL `param`), and opaque tags standing for the stored
`param_str`, `driver_cb`, `user_cb` and `context` pointers. -/

structure RdmCbEntry where
  pid : Nat
  param : Option (List Nat)
  data_type : Nat
  pdl_size : Nat
  param_str : Nat
  driver_cb : Nat
  user_cb : Nat
  context : Nat
deriving DecidableEq

/-- A port's parameter table: the fixed backing array (total function on
indices) and the count `num_rdm_cbs` of entries in use. -/

structure DriverTable where
  cbs : Nat → RdmCbEntry
  num : Nat

/-- Scan of the callback list (part_001 lines 290-293 and 321-327): the
first index below `num` whose entry carries `pid`, else `num`. -/

def findPidIdx (t : DriverTable) (pid : Nat) : Nat :=
  ((List.range t.num).find? (fun i => (t.cbs i).pid == pid)).getD t.num

/-- Embedding of `rdm_register_parameter` (part_001 lines 271-311):
reject non-root sub-devices, scan for the PID, reject when the scan
stopped at `RDM_RESPONDER_PIDS_MAX`, otherwise overwrite the entry at the
found index with the new fields and increment `num_rdm_cbs`
unconditionally. -/

def rdm_register_parameter (t : DriverTable) (sub_device : Nat) (e : RdmCbEntry) :
    Bool × DriverTable :=
  if sub_device ≠ RDM_SUB_DEVICE_ROOT then (false, t)
  else
    let i := findPidIdx t e.pid
    if i = RDM_RESPONDER_PIDS_MAX then (false, t)
    else (true, { cbs := fun j => if j = i then e else t.cbs j, num := t.num + 1 })

/-- C string length bounded by `maxlen`, `strnlen`: the number of leading
nonzero bytes of `l`, at most `maxlen`. -/

def strnlenList (l : List Nat) (maxlen : Nat) : Nat :=
  ((l.take maxlen).takeWhile (fun b => b ≠ 0)).length

/-- Embedding of `rdm_get_parameter` (part_001 lines 313-342): scan for
the PID; when found with non-NULL storage, copy into the caller's buffer —
`strnlen`/`strncpy` limited by the caller's size cell for `RDM_DS_ASCII`,
`memcpy` of `min(*size, pdl_size)` otherwise — updating the size cell; in
every other case leave buffer and size cell untouched and return `false`.
Returns `(found-and-copied, buffer, size-cell)`. -/

def rdm_get_parameter (t : DriverTable) (pid : Nat) (param : List Nat) (size : Nat) :
    Bool × List Nat × Nat :=
  match ((List.range t.num).find? (fun i => (t.cbs i).pid == pid)).map t.cbs with
  | none => (false, param, size)
  | some entry =>
    match entry.param with
    | none => (false, param, size)
    | some pd =>
      if entry.data_type = RDM_DS_ASCII then
        let size' := strnlenList pd size
        (true, pd.take size' ++ param.drop size', size')
      else
        let size' := if size < entry.pdl_size then size else entry.pdl_size
        (true, pd.take size' ++ param.drop size', size')

/-- Per-port bump-allocator state: `pd_head` (next free offset) and
`pd_size` (capacity of the backing region), both 32-bit `size_t`. -/

structure PdState where
  pd_head : Nat
  pd_size : Nat
deriving DecidableEq

/-- Embedding of `rdm_pd_alloc` (part_001 lines 231-250): a zero size
yields NULL; otherwise, when the `size_t` sum `pd_head + size` (32-bit
wraparound) does not exceed `pd_size`, the region at the current bump
offset is returned and `pd_head` advances to that sum; otherwise NULL and
no state change.  The returned offset stands for the pointer
`driver->pd + pd_head`. -/

def rdm_pd_alloc (st : PdState) (size : Nat) : Option Nat × PdState :=
  if size = 0 then (none, st)
  else if (st.pd_head + size) % SIZE_T_MOD ≤ st.pd_size then
    (some st.pd_head, { st with pd_head := (st.pd_head + size) % SIZE_T_MOD })
  else (none, st)

/-- State after a sequence of `rdm_pd_alloc` calls. -/

def rdm_pd_allocMany (st : PdState) (sizes : List Nat) : PdState :=
  sizes.foldl (fun s sz => (rdm_pd_alloc s sz).2) st

/-- Registered table entry used by the C8 and C9 theorems. -/

def entryA : RdmCbEntry :=
  { pid := 0x1234, param := none, data_type := 0, pdl_size := 2, param_str := 1,
    driver_cb := 1, user_cb := 0, context := 0 }

/-- Re-registration of the same PID with different descriptor and handler
fields. -/

def entryB : RdmCbEntry := { entryA with driver_cb := 2, pdl_size := 4 }

/-- Table with exactly one registered entry (`entryA`, PID `0x1234`). -/

def tableA : DriverTable := { cbs := fun _ => entryA, num := 1 }

/-- Hex-digit test, `isxdigit`. -/

def isHexChar (c : Char) : Bool :=
  c.isDigit || (decide ('a' ≤ c) && decide (c ≤ 'f')) || (decide ('A' ≤ c) && decide (c ≤ 'F'))

/-- Embedding of `rdm_param_parse` (part_001 lines 75-139), fuelled so
that the recursion is structural (the wrapper passes `length + 1`, which
the char-by-char consumption never exhausts).  The accumulator carries
`param_size`; the Bool carries `*is_singleton`.  Error returns are `0`
(or `-1` for a misplaced ASCII field, as in the source); each field runs
the common `param_size + field_size > 231` guard.  A `#` literal consumes
its hex digits (at most 16, else error) and requires an `h`/`H`
terminator. -/

def parseStep (k : List Char → Nat → Bool → Int × Bool) (c : Char) (rest : List Char)
    (acc : Nat) (single : Bool) : Int × Bool :=
  if c = 'b' ∨ c = 'B' then
    if acc + 1 > 231 then ((0 : Int), single) else k rest (acc + 1) single
  else if c = 'w' ∨ c = 'W' then
    if acc + 2 > 231 then ((0 : Int), single) else k rest (acc + 2) single
  else if c = 'd' ∨ c = 'D' then
    if acc + 4 > 231 then ((0 : Int), single) else k rest (acc + 4) single
  else if c = 'u' ∨ c = 'U' then
    if acc + 6 > 231 then ((0 : Int), single) else k rest (acc + 6) single
  else if c = 'v' ∨ c = 'V' then
    if rest ≠ [] ∧ rest.headD ' ' ≠ '$' then ((0 : Int), single)
    else if acc + 6 > 231 then ((0 : Int), true)
    else k rest (acc + 6) true
  else if c = 'a' ∨ c = 'A' then
    if rest ≠ [] ∧ rest.headD ' ' ≠ '$' then ((-1 : Int), single)
    else if acc + 32 > 231 then ((0 : Int), true)
    else k rest (acc + 32) true
  else if c = '#' then
    if 17 ≤ (rest.takeWhile isHexChar).length then ((0 : Int), single)
    else if (rest.drop (rest.takeWhile isHexChar).length).headD ' ' = 'h' ∨
        (rest.drop (rest.takeWhile isHexChar).length).headD ' ' = 'H' then
      if acc + ((rest.takeWhile isHexChar).length / 2 +
          (rest.takeWhile isHexChar).length % 2) > 231 then ((0 : Int), single)
      else k (rest.drop (rest.takeWhile isHexChar).length).tail
        (acc + ((rest.takeWhile isHexChar).length / 2 +
          (rest.takeWhile isHexChar).length % 2)) single
    else ((0 : Int), single)
  else if c = '$' then
    if rest ≠ [] then ((0 : Int), single)
    else if acc + 0 > 231 then ((0 : Int), true)
    else k rest acc true
  else ((0 : Int), single)

def rdm_param_parse_go : Nat → List Char → Nat → Bool → Int × Bool
  | _, [], acc, single => ((acc : Int), single)
  | 0, _ :: _, acc, single => ((acc : Int), single)
  | fuel + 1, c :: rest, acc, single =>
    parseStep (fun r a s => rdm_param_parse_go fuel r a s) c rest acc single

/-- Wrapper with sufficient fuel; `*is_singleton` starts as
`(*format == '\0')`. -/

def rdm_param_parse (format : List Char) : Int × Bool :=
  rdm_param_parse_go (format.length + 1) format 0 format.isEmpty

/-- Test of `rdm_uid_is_null(source + n)` in the emplace loop: the six
bytes at offset `n` are all zero (a list shorter than `n + 6` is read as
zero-padded; every input used in the theorems is long enough). -/

def uidIsNullAt (src : List Nat) (n : Nat) : Bool :=
  ((src.drop n).take 6).all (fun b => b == 0)

/-- Embedding of the inner per-parameter loop of `rdm_pd_emplace`
(part_001 lines 165-219), fuelled like the parser.  Only the running byte
count `n` is tracked — each case advances `n` by exactly the number of
bytes the C writes at `destination + n`.  An optional UID (`v`) that is
null with `emplace_nulls` false breaks out of the copy; an ASCII field
measures `strnlen(source + n, max_len)` with `max_len` the `size_t`
difference `num - n` (32-bit wraparound) capped at 32, writes the string
plus an optional null terminator, and breaks; a `#` literal writes
`ceil(digits/2)` bytes and skips past its terminator.  The
per-character dispatch lives in `emplaceStep` with the recursive
continuation as a parameter. -/

def emplaceStep (k : List Char → Nat → Nat) (c : Char) (rest : List Char) (src : List Nat)
    (num : Nat) (nulls : Bool) (n : Nat) : Nat :=
  if c = 'b' ∨ c = 'B' then k rest (n + 1)
  else if c = 'w' ∨ c = 'W' then k rest (n + 2)
  else if c = 'd' ∨ c = 'D' then k rest (n + 4)
  else if c = 'u' ∨ c = 'U' ∨ c = 'v' ∨ c = 'V' then
    if (c = 'v' ∨ c = 'V') ∧ nulls = false ∧ uidIsNullAt src n = true then n
    else k rest (n + 6)
  else if c = 'a' ∨ c = 'A' then
    n + strnlenList (src.drop n)
      (if (num + SIZE_T_MOD - n) % SIZE_T_MOD < 32
        then (num + SIZE_T_MOD - n) % SIZE_T_MOD else 32) +
      (if nulls then 1 else 0)
  else if c = '#' then
    k ((rest.drop (rest.takeWhile isHexChar).length).drop 1)
      (n + ((rest.takeWhile isHexChar).length / 2 + (rest.takeWhile isHexChar).length % 2))
  else k rest n

def rdm_pd_emplace_go : Nat → List Char → List Nat → Nat → Bool → Nat → Nat
  | _, [], _, _, _, n => n
  | 0, _ :: _, _, _, _, n => n
  | fuel + 1, c :: rest, src, num, nulls, n =>
    emplaceStep (fun r m => rdm_pd_emplace_go fuel r src num nulls m) c rest src num nulls n

/-- Embedding of `rdm_pd_emplace` (part_001 lines 141-222): clamp `num`
to 231, reject formats whose parse yields `param_size < 1` before writing
anything, then run the inner loop once for a singleton format and
`num / param_size` times otherwise, threading the byte count. -/

def rdm_pd_emplace (format : List Char) (src : List Nat) (num0 : Nat) (nulls : Bool) : Nat :=
  if (rdm_param_parse format).1 < 1 then 0
  else
    (List.range (if (rdm_param_parse format).2 then 1
        else (if num0 > 231 then 231 else num0) / (rdm_param_parse format).1.toNat)).foldl
      (fun n _ => rdm_pd_emplace_go (format.length + 1) format src
        (if num0 > 231 then 231 else num0) nulls n) 0

/-- Induction motive tying `rdm_param_parse_go` to `rdm_pd_emplace_go` at
equal fuel: a successful parse from accumulator `acc` to size `sz` keeps
`sz` within 231, preserves an already-set singleton flag, bounds every
emplace pass by the parsed size (plus one byte for the null terminator of
a trailing ASCII field), and, for non-singleton formats, makes every
emplace pass advance by exactly the parsed size. -/

def KeyProp (fuel : Nat) : Prop :=
  ∀ (fmt : List Char) (acc : Nat) (single : Bool) (sz : Int) (sgl : Bool),
    fmt.length < fuel →
    rdm_param_parse_go fuel fmt acc single = (sz, sgl) →
    1 ≤ sz → acc ≤ 231 →
    ((acc : Int) ≤ sz ∧ sz ≤ 231) ∧
    (single = true → sgl = true) ∧
    (∀ src num nulls n, rdm_pd_emplace_go fuel fmt src num nulls n ≤
      n + (sz.toNat - acc) + (if nulls then 1 else 0)) ∧
    (sgl = false → ∀ src num nulls n,
      rdm_pd_emplace_go fuel fmt src num nulls n = n + (sz.toNat - acc))

/-- Format of 199 byte fields followed by one ASCII field: parse size
`199 + 32 = 231`, accepted by `rdm_param_parse`. -/

def fmtCex : List Char := List.replicate 199 'b' ++ ['a']

/-- Source of 231 nonzero bytes, so the trailing string measures a full
32 bytes. -/

def srcCex : List Nat := List.replicate 231 1

lemma masked_or_mod256 (a b : Nat) (hb : b < 256) :
    ((a &&& 0xffffff00) ||| b) % 256 = b := by
  have h256 : (256 : Nat) = 2 ^ 8 := by norm_num
  apply Nat.eq_of_testBit_eq
  intro i
  rw [h256]
  simp only [Nat.testBit_mod_two_pow, Nat.testBit_or, Nat.testBit_and]
  rcases Nat.lt_or_ge i 8 with hi | hi
  · have hm : Nat.testBit 0xffffff00 i = false := by interval_cases i <;> decide
    simp [hm, hi]
  · have h1 : Nat.testBit b i = false :=
      Nat.testBit_lt_two_pow (Nat.lt_of_lt_of_le hb (by
        calc (256 : Nat) = 2 ^ 8 := by norm_num
        _ ≤ 2 ^ i := Nat.pow_le_pow_right (by norm_num) hi))
    simp [h1, Nat.lt_irrefl, show ¬ i < 8 from Nat.not_lt.mpr hi]

lemma masked_or_div256 (a b : Nat) (ha : a < SIZE_T_MOD) (hb : b < 256) :
    ((a &&& 0xffffff00) ||| b) / 256 = a / 256 := by
  have h256 : (256 : Nat) = 2 ^ 8 := by norm_num
  apply Nat.eq_of_testBit_eq
  intro i
  rw [h256, ← Nat.shiftRight_eq_div_pow, ← Nat.shiftRight_eq_div_pow]
  simp only [Nat.testBit_shiftRight, Nat.testBit_or, Nat.testBit_and]
  have hbbit : Nat.testBit b (8 + i) = false :=
    Nat.testBit_lt_two_pow (Nat.lt_of_lt_of_le hb (by
      calc (256 : Nat) = 2 ^ 8 := by norm_num
      _ ≤ 2 ^ (8 + i) := Nat.pow_le_pow_right (by norm_num) (by omega)))
  rcases Nat.lt_or_ge i 24 with hi | hi
  · have hm : Nat.testBit 0xffffff00 (8 + i) = true := by
      interval_cases i <;> decide
    simp [hm, hbbit]
  · have hm : Nat.testBit 0xffffff00 (8 + i) = false := by
      apply Nat.testBit_lt_two_pow
      calc (0xffffff00 : Nat) < 2 ^ 32 := by norm_num
      _ ≤ 2 ^ (8 + i) := Nat.pow_le_pow_right (by norm_num) (by omega)
    have habit : Nat.testBit a (8 + i) = false := by
      apply Nat.testBit_lt_two_pow
      calc a < SIZE_T_MOD := ha
      _ = 2 ^ 32 := by norm_num [SIZE_T_MOD]
      _ ≤ 2 ^ (8 + i) := Nat.pow_le_pow_right (by norm_num) (by omega)
    simp [hm, hbbit, habit]

/-- C5 (counterexample): with binding UID `05e0:00000001` and port index 1
the source computes final octet `0x01 + 1 = 0x02`, while the claimed XOR
derivation would give `0x01 XOR 1 = 0x00`; the two disagree. -/

theorem uid_get_xor_counterexample :
    (rdm_uid_get ⟨0x05e0, 0x00000001⟩ 1).dev_id = 0x00000002 ∧
    (rdm_uid_get_spec ⟨0x05e0, 0x00000001⟩ 1).dev_id = 0x00000000 ∧
    rdm_uid_get ⟨0x05e0, 0x00000001⟩ 1 ≠ rdm_uid_get_spec ⟨0x05e0, 0x00000001⟩ 1 := by
  refine ⟨by decide, by decide, by decide⟩

/-- C5 (amended): for every port index, `rdm_uid_get` returns the binding
UID with its last octet replaced by the binding UID's last octet plus the
port index modulo 256 (not XOR); the manufacturer id and the upper three
octets of the device id are unchanged. -/

theorem uid_get_increments_last_octet (binding : RdmUid) (dmx_num : Nat)
    (h : binding.dev_id < SIZE_T_MOD) :
    (rdm_uid_get binding dmx_num).man_id = binding.man_id ∧
    (rdm_uid_get binding dmx_num).dev_id / 256 = binding.dev_id / 256 ∧
    (rdm_uid_get binding dmx_num).dev_id % 256 =
      (binding.dev_id % 256 + dmx_num) % 256 := by
  refine ⟨rfl, ?_, ?_⟩
  · exact masked_or_div256 _ _ h (Nat.mod_lt _ (by norm_num))
  · exact masked_or_mod256 _ _ (Nat.mod_lt _ (by norm_num))

/-- C5 (witness): the amended theorem applied at binding UID
`05e0:12345678` and port index 3. -/

theorem uid_get_increments_last_octet_witness :
    (rdm_uid_get ⟨0x05e0, 0x12345678⟩ 3).man_id = 0x05e0 ∧
    (rdm_uid_get ⟨0x05e0, 0x12345678⟩ 3).dev_id / 256 = 0x12345678 / 256 ∧
    (rdm_uid_get ⟨0x05e0, 0x12345678⟩ 3).dev_id % 256 = (0x12345678 % 256 + 3) % 256 :=
  uid_get_increments_last_octet ⟨0x05e0, 0x12345678⟩ 3 (by norm_num [SIZE_T_MOD])

lemma uidByte_lt (u j : Nat) : uidByte u j < 256 :=
  Nat.mod_lt _ (by norm_num)

lemma mask_roundtrip : ∀ b, b < 256 → ((b ||| 0xaa) &&& 0x55) ||| ((b ||| 0x55) &&& 0xaa) = b := by
  decide

lemma or_mod_two_pow (a c n : Nat) : (a ||| c) % 2 ^ n = a % 2 ^ n ||| c % 2 ^ n := by
  apply Nat.eq_of_testBit_eq
  intro i
  simp only [Nat.testBit_mod_two_pow, Nat.testBit_or]
  exact Bool.and_or_distrib_left _ _ _

lemma discChecksum_lt (u : Nat) : discChecksum u < 65536 := by
  unfold discChecksum
  simp only [List.foldl]
  exact Nat.mod_lt _ (by norm_num)

lemma digits48 (u : Nat) (hu : u < 2 ^ 48) :
    uidByte u 5 * 256 ^ 5 + uidByte u 4 * 256 ^ 4 + uidByte u 3 * 256 ^ 3 +
      uidByte u 2 * 256 ^ 2 + uidByte u 1 * 256 + uidByte u 0 = u := by
  unfold uidByte
  have e5 : (256 : Nat) ^ 5 = 1099511627776 := by norm_num
  have e4 : (256 : Nat) ^ 4 = 4294967296 := by norm_num
  have e3 : (256 : Nat) ^ 3 = 16777216 := by norm_num
  have e2 : (256 : Nat) ^ 2 = 65536 := by norm_num
  have e1 : (256 : Nat) ^ 1 = 256 := by norm_num
  have e0 : (256 : Nat) ^ 0 = 1 := by norm_num
  have h48 : (2 : Nat) ^ 48 = 281474976710656 := by norm_num
  rw [e5, e4, e3, e2, e1, e0] at *
  rw [h48] at hu
  omega

lemma or_lt_256 {x y : Nat} (hx : x < 256) (hy : y < 256) : x ||| y < 256 := by
  have e : (256 : Nat) = 2 ^ 8 := by norm_num
  rw [e] at hx hy ⊢
  exact Nat.or_lt_two_pow hx hy

/-- C2: for every 48-bit UID, encoding it with `rdm_send_disc_response`
(seven `0xfe` preamble bytes, one `0xaa` delimiter, twelve
Manchester-encoded UID bytes with the first of each pair ORed with `0xaa`
and the second with `0x55`, and four encoded checksum bytes) and decoding
the resulting 24 bytes with `rdm_parse` recovers exactly that UID, and the
sum recomputed by the parser (each recovered UID byte plus `0xff`) equals
the decoded checksum, so the parse reports a valid checksum. -/

theorem disc_response_roundtrip (u : Nat) (hu : u < 2 ^ 48) :
    rdm_parse (rdm_send_disc_response u) =
      ParseOutcome.disc u (discChecksum u) (discChecksum u) := by
  have hcs := discChecksum_lt u
  have h5 := uidByte_lt u 5
  have h4 := uidByte_lt u 4
  have h3 := uidByte_lt u 3
  have h2 := uidByte_lt u 2
  have h1 := uidByte_lt u 1
  have h0 := uidByte_lt u 0
  have key : rdm_parse (rdm_send_disc_response u) =
      ParseOutcome.disc (discDecodedUid ((rdm_send_disc_response u).drop 8))
        (discSum ((rdm_send_disc_response u).drop 8))
        (discDecodedChecksum ((rdm_send_disc_response u).drop 8)) := rfl
  have hb0 : discDecodedByte ((rdm_send_disc_response u).drop 8) 0 = uidByte u 5 := by
    have e : discDecodedByte ((rdm_send_disc_response u).drop 8) 0 =
        ((uidByte u 5 ||| 0xaa) &&& 0x55) ||| ((uidByte u 5 ||| 0x55) &&& 0xaa) := rfl
    rw [e]; exact mask_roundtrip _ h5
  have hb1 : discDecodedByte ((rdm_send_disc_response u).drop 8) 1 = uidByte u 4 := by
    have e : discDecodedByte ((rdm_send_disc_response u).drop 8) 1 =
        ((uidByte u 4 ||| 0xaa) &&& 0x55) ||| ((uidByte u 4 ||| 0x55) &&& 0xaa) := rfl
    rw [e]; exact mask_roundtrip _ h4
  have hb2 : discDecodedByte ((rdm_send_disc_response u).drop 8) 2 = uidByte u 3 := by
    have e : discDecodedByte ((rdm_send_disc_response u).drop 8) 2 =
        ((uidByte u 3 ||| 0xaa) &&& 0x55) ||| ((uidByte u 3 ||| 0x55) &&& 0xaa) := rfl
    rw [e]; exact mask_roundtrip _ h3
  have hb3 : discDecodedByte ((rdm_send_disc_response u).drop 8) 3 = uidByte u 2 := by
    have e : discDecodedByte ((rdm_send_disc_response u).drop 8) 3 =
        ((uidByte u 2 ||| 0xaa) &&& 0x55) ||| ((uidByte u 2 ||| 0x55) &&& 0xaa) := rfl
    rw [e]; exact mask_roundtrip _ h2
  have hb4 : discDecodedByte ((rdm_send_disc_response u).drop 8) 4 = uidByte u 1 := by
    have e : discDecodedByte ((rdm_send_disc_response u).drop 8) 4 =
        ((uidByte u 1 ||| 0xaa) &&& 0x55) ||| ((uidByte u 1 ||| 0x55) &&& 0xaa) := rfl
    rw [e]; exact mask_roundtrip _ h1
  have hb5 : discDecodedByte ((rdm_send_disc_response u).drop 8) 5 = uidByte u 0 := by
    have e : discDecodedByte ((rdm_send_disc_response u).drop 8) 5 =
        ((uidByte u 0 ||| 0xaa) &&& 0x55) ||| ((uidByte u 0 ||| 0x55) &&& 0xaa) := rfl
    rw [e]; exact mask_roundtrip _ h0
  have e8 : (256 : Nat) = 2 ^ 8 := by norm_num
  have hhi : discChecksum u / 256 < 256 := by omega
  have hc1 : (((rdm_send_disc_response u).drop 8).getD 12 0 &&& 0x55) |||
      (((rdm_send_disc_response u).drop 8).getD 13 0 &&& 0xaa) = discChecksum u / 256 := by
    have e : (((rdm_send_disc_response u).drop 8).getD 12 0 &&& 0x55) |||
        (((rdm_send_disc_response u).drop 8).getD 13 0 &&& 0xaa) =
        ((((discChecksum u / 256) ||| 0xaa) % 256) &&& 0x55) |||
          ((((discChecksum u / 256) ||| 0x55) % 256) &&& 0xaa) := rfl
    rw [e, Nat.mod_eq_of_lt (or_lt_256 hhi (by norm_num)),
      Nat.mod_eq_of_lt (or_lt_256 hhi (by norm_num))]
    exact mask_roundtrip _ hhi
  have hc0 : (((rdm_send_disc_response u).drop 8).getD 14 0 &&& 0x55) |||
      (((rdm_send_disc_response u).drop 8).getD 15 0 &&& 0xaa) = discChecksum u % 256 := by
    have e : (((rdm_send_disc_response u).drop 8).getD 14 0 &&& 0x55) |||
        (((rdm_send_disc_response u).drop 8).getD 15 0 &&& 0xaa) =
        (((discChecksum u ||| 0xaa) % 256) &&& 0x55) |||
          (((discChecksum u ||| 0x55) % 256) &&& 0xaa) := rfl
    have m1 : (discChecksum u ||| 0xaa) % 256 = discChecksum u % 256 ||| 0xaa := by
      rw [e8, or_mod_two_pow]; norm_num
    have m2 : (discChecksum u ||| 0x55) % 256 = discChecksum u % 256 ||| 0x55 := by
      rw [e8, or_mod_two_pow]; norm_num
    rw [e, m1, m2]
    exact mask_roundtrip _ (Nat.mod_lt _ (by norm_num))
  have huid : discDecodedUid ((rdm_send_disc_response u).drop 8) = u := by
    unfold discDecodedUid
    rw [hb0, hb1, hb2, hb3, hb4, hb5]
    exact digits48 u hu
  have hsum : discSum ((rdm_send_disc_response u).drop 8) = discChecksum u := by
    unfold discSum discChecksum
    simp only [List.foldl]
    rw [hb0, hb1, hb2, hb3, hb4, hb5]
  have hchk : discDecodedChecksum ((rdm_send_disc_response u).drop 8) = discChecksum u := by
    unfold discDecodedChecksum
    rw [hc1, hc0]
    omega
  rw [key, huid, hsum, hchk]

/-- C2 (witness): the round-trip theorem applied at the concrete UID
`0202:02020202`. -/

theorem disc_response_roundtrip_witness :
    0x020202020202 < 2 ^ 48 ∧
    rdm_parse (rdm_send_disc_response 0x020202020202) =
      ParseOutcome.disc 0x020202020202 (discChecksum 0x020202020202)
        (discChecksum 0x020202020202) ∧
    discChecksum 0x020202020202 = 0x0606 :=
  ⟨by norm_num, disc_response_roundtrip 0x020202020202 (by norm_num), by decide⟩

/-- C6 (counterexample): on the byte sequence given by the specification,
`FE FE FE FE FE FE FE AA AB 57 AB 57 AB 57 AB 57 F5 AA F5 AA F5 AA F5 AA`,
`rdm_parse` recovers the UID `0303:0303FFFF` — not the claimed
`0202:02020202` — and the recomputed sum `0x0804` differs from the decoded
checksum `0xffff`, so the parse reports an invalid checksum and returns
`false`. -/

theorem disc_decode_sample_counterexample :
    rdm_parse [0xfe, 0xfe, 0xfe, 0xfe, 0xfe, 0xfe, 0xfe, 0xaa,
        0xab, 0x57, 0xab, 0x57, 0xab, 0x57, 0xab, 0x57,
        0xf5, 0xaa, 0xf5, 0xaa, 0xf5, 0xaa, 0xf5, 0xaa] =
      ParseOutcome.disc 0x03030303ffff 0x0804 0xffff ∧
    (0x03030303ffff : Nat) ≠ 0x020202020202 ∧
    (0x0804 : Nat) ≠ 0xffff ∧
    rdm_parse_returns (rdm_parse [0xfe, 0xfe, 0xfe, 0xfe, 0xfe, 0xfe, 0xfe, 0xaa,
        0xab, 0x57, 0xab, 0x57, 0xab, 0x57, 0xab, 0x57,
        0xf5, 0xaa, 0xf5, 0xaa, 0xf5, 0xaa, 0xf5, 0xaa]) = false := by
  refine ⟨by decide, by decide, by decide, by decide⟩

/-- C6 (amended): the correct encoding of the UID `0202:02020202` is
`FE FE FE FE FE FE FE AA AA 57 AA 57 AA 57 AA 57 AA 57 AA 57 AE 57 AE 57`
(each UID byte `0x02` encodes as the pair `AA 57`, and the checksum
`0x0606` as two `AE 57` pairs); decoding it with `rdm_parse` recovers
`0202:02020202` and the recomputed sum `0x0606` matches the decoded
checksum, so the parse returns `true`. -/

theorem disc_decode_sample_corrected :
    rdm_parse [0xfe, 0xfe, 0xfe, 0xfe, 0xfe, 0xfe, 0xfe, 0xaa,
        0xaa, 0x57, 0xaa, 0x57, 0xaa, 0x57, 0xaa, 0x57,
        0xaa, 0x57, 0xaa, 0x57, 0xae, 0x57, 0xae, 0x57] =
      ParseOutcome.disc 0x020202020202 0x0606 0x0606 ∧
    rdm_parse_returns (rdm_parse [0xfe, 0xfe, 0xfe, 0xfe, 0xfe, 0xfe, 0xfe, 0xaa,
        0xaa, 0x57, 0xaa, 0x57, 0xaa, 0x57, 0xaa, 0x57,
        0xaa, 0x57, 0xaa, 0x57, 0xae, 0x57, 0xae, 0x57]) = true ∧
    rdm_send_disc_response 0x020202020202 =
      [0xfe, 0xfe, 0xfe, 0xfe, 0xfe, 0xfe, 0xfe, 0xaa,
        0xaa, 0x57, 0xaa, 0x57, 0xaa, 0x57, 0xaa, 0x57,
        0xaa, 0x57, 0xaa, 0x57, 0xae, 0x57, 0xae, 0x57] := by
  refine ⟨by decide, by decide, by decide⟩

lemma fields_match_iff (rq resp : RdmHeader) :
    respFieldsMatch rq resp ↔
      ¬((rq.cc : Int) ≠ (resp.cc : Int) - 1 ∨ rq.pid ≠ resp.pid ∨ rq.tn ≠ resp.tn ∨
        rdm_uid_is_target resp.src_uid rq.dest_uid = false ∨
        rdm_uid_is_eq resp.dest_uid rq.src_uid = false) := by
  unfold respFieldsMatch
  push_neg
  simp only [Bool.ne_false_iff]
  constructor
  · rintro ⟨m1, m2, m3, m4, m5⟩
    exact ⟨by omega, m2.symm, m3.symm, m5, m4⟩
  · rintro ⟨h1, h2, h3, h4, h5⟩
    exact ⟨by omega, h2.symm, h3.symm, h5, h4⟩

lemma classify_none (rq : RdmHeader) :
    classifyResponse rq none = RDM_RESPONSE_TYPE_INVALID := rfl

lemma classify_invalid_type (rq resp : RdmHeader) (h : ¬respTypeValid resp) :
    classifyResponse rq (some resp) = RDM_RESPONSE_TYPE_INVALID := by
  unfold respTypeValid at h
  push_neg at h
  simp only [classifyResponse]
  rw [if_pos h]

lemma classify_bad_fields (rq resp : RdmHeader) (hv : respTypeValid resp)
    (hp : rq.pid ≠ RDM_PID_DISC_UNIQUE_BRANCH) (hf : ¬respFieldsMatch rq resp) :
    classifyResponse rq (some resp) = RDM_RESPONSE_TYPE_INVALID := by
  have hv' : ¬(resp.response_type ≠ RDM_RESPONSE_TYPE_ACK ∧
      resp.response_type ≠ RDM_RESPONSE_TYPE_ACK_TIMER ∧
      resp.response_type ≠ RDM_RESPONSE_TYPE_NACK_REASON ∧
      resp.response_type ≠ RDM_RESPONSE_TYPE_ACK_OVERFLOW) := by
    rintro ⟨a, b, c, d⟩
    rcases hv with h | h | h | h
    exacts [a h, b h, c h, d h]
  have hd : (rq.cc : Int) ≠ (resp.cc : Int) - 1 ∨ rq.pid ≠ resp.pid ∨ rq.tn ≠ resp.tn ∨
      rdm_uid_is_target resp.src_uid rq.dest_uid = false ∨
      rdm_uid_is_eq resp.dest_uid rq.src_uid = false := by
    rw [fields_match_iff] at hf
    exact not_not.mp hf
  simp only [classifyResponse]
  rw [if_neg hv', if_pos ⟨hp, hd⟩]

lemma classify_ok (rq resp : RdmHeader) (hv : respTypeValid resp)
    (h : rq.pid = RDM_PID_DISC_UNIQUE_BRANCH ∨ respFieldsMatch rq resp) :
    classifyResponse rq (some resp) = resp.response_type := by
  have hv' : ¬(resp.response_type ≠ RDM_RESPONSE_TYPE_ACK ∧
      resp.response_type ≠ RDM_RESPONSE_TYPE_ACK_TIMER ∧
      resp.response_type ≠ RDM_RESPONSE_TYPE_NACK_REASON ∧
      resp.response_type ≠ RDM_RESPONSE_TYPE_ACK_OVERFLOW) := by
    rintro ⟨a, b, c, d⟩
    rcases hv with h' | h' | h' | h'
    exacts [a h', b h', c h', d h']
  have h2 : ¬(rq.pid ≠ RDM_PID_DISC_UNIQUE_BRANCH ∧
      ((rq.cc : Int) ≠ (resp.cc : Int) - 1 ∨ rq.pid ≠ resp.pid ∨ rq.tn ≠ resp.tn ∨
        rdm_uid_is_target resp.src_uid rq.dest_uid = false ∨
        rdm_uid_is_eq resp.dest_uid rq.src_uid = false)) := by
    rintro ⟨hp, hd⟩
    rcases h with h | h
    · exact hp h
    · rw [fields_match_iff] at h
      exact h hd
  simp only [classifyResponse]
  rw [if_neg hv', if_neg h2]

lemma send_request_received (tn0 : Nat) (req0 : RdmHeader) (env : SendEnv)
    (hm : env.mutexOk = true) (hw : env.waitSentOk = true)
    (he : responseExpected (fixupHeader tn0 env req0) = true)
    (herr : env.packetErr = 0 ∨ env.packetErr = DMX_ERR_TIMEOUT)
    (hsz : ¬env.recvSize = 0) :
    rdm_send_request tn0 req0 env =
      { retval := classifyResponse (fixupHeader tn0 env req0) env.decode ==
          RDM_RESPONSE_TYPE_ACK,
        ackType := some (classifyResponse (fixupHeader tn0 env req0) env.decode),
        awaited := true, placed := true, headerTn := (fixupHeader tn0 env req0).tn,
        tnAfter := (tn0 + 1) % 256 } := by
  unfold rdm_send_request
  rw [if_pos hm, if_pos hw, if_pos he, if_neg (by
    rintro ⟨h1, h2⟩
    rcases herr with h | h
    exacts [h1 h, h2 h]), if_neg hsz]

lemma responseExpected_iff (h : RdmHeader) :
    responseExpected h = true ↔
      (rdm_uid_is_broadcast h.dest_uid = false ∨
        (h.pid = RDM_PID_DISC_UNIQUE_BRANCH ∧ h.cc = RDM_CC_DISC_COMMAND)) := by
  unfold responseExpected
  simp [Bool.or_eq_true, Bool.and_eq_true, beq_iff_eq, Bool.not_eq_true']

/-- C1 (amended): for every controller request sent with
`rdm_send_request` that receives a response, the function returns `true`
iff the response decodes with a valid checksum, its response type is
`RDM_RESPONSE_TYPE_ACK`, and — unless the request's PID was
`DISC_UNIQUE_BRANCH` — its fields match the request; a failed decode, a
response type outside the four valid types, or (unless the request's PID
was `DISC_UNIQUE_BRANCH`) any field mismatch yields
`ack.type = RDM_RESPONSE_TYPE_INVALID` and `false`; a response passing
those validity checks has its received response type stored in `ack.type`
verbatim, with `true` returned only for `ACK`. -/

theorem rdm_send_request_ack_characterization (tn0 : Nat) (req0 : RdmHeader) (env : SendEnv)
    (hm : env.mutexOk = true) (hw : env.waitSentOk = true)
    (he : responseExpected (fixupHeader tn0 env req0) = true)
    (herr : env.packetErr = 0 ∨ env.packetErr = DMX_ERR_TIMEOUT)
    (hsz : ¬env.recvSize = 0) :
    ((rdm_send_request tn0 req0 env).retval = true ↔
      ∃ resp, env.decode = some resp ∧
        resp.response_type = RDM_RESPONSE_TYPE_ACK ∧
        ((fixupHeader tn0 env req0).pid = RDM_PID_DISC_UNIQUE_BRANCH ∨
          respFieldsMatch (fixupHeader tn0 env req0) resp)) ∧
    ((env.decode = none ∨ ∃ resp, env.decode = some resp ∧
        (¬respTypeValid resp ∨ ((fixupHeader tn0 env req0).pid ≠ RDM_PID_DISC_UNIQUE_BRANCH ∧
          ¬respFieldsMatch (fixupHeader tn0 env req0) resp))) →
      (rdm_send_request tn0 req0 env).ackType = some RDM_RESPONSE_TYPE_INVALID ∧
      (rdm_send_request tn0 req0 env).retval = false) ∧
    (∀ resp, env.decode = some resp → respTypeValid resp →
      ((fixupHeader tn0 env req0).pid = RDM_PID_DISC_UNIQUE_BRANCH ∨
        respFieldsMatch (fixupHeader tn0 env req0) resp) →
      (rdm_send_request tn0 req0 env).ackType = some resp.response_type ∧
      ((rdm_send_request tn0 req0 env).retval = true ↔
        resp.response_type = RDM_RESPONSE_TYPE_ACK)) := by
  have hr := send_request_received tn0 req0 env hm hw he herr hsz
  rw [hr]
  dsimp only
  refine ⟨?_, ?_, ?_⟩
  · simp only [beq_iff_eq]
    constructor
    · intro h
      cases hd : env.decode with
      | none =>
        rw [hd, classify_none] at h
        exact absurd h (by decide)
      | some resp =>
        rw [hd] at h
        by_cases hv : respTypeValid resp
        · by_cases hok : (fixupHeader tn0 env req0).pid = RDM_PID_DISC_UNIQUE_BRANCH ∨
              respFieldsMatch (fixupHeader tn0 env req0) resp
          · rw [classify_ok _ resp hv hok] at h
            exact ⟨resp, rfl, h, hok⟩
          · push_neg at hok
            rw [classify_bad_fields _ resp hv hok.1 hok.2] at h
            exact absurd h (by decide)
        · rw [classify_invalid_type _ resp hv] at h
          exact absurd h (by decide)
    · rintro ⟨resp, hd, hrt, hok⟩
      rw [hd, classify_ok _ resp (Or.inl hrt) hok, hrt]
  · rintro (hd | ⟨resp, hd, hbad⟩)
    · rw [hd, classify_none]
      exact ⟨rfl, by decide⟩
    · rw [hd]
      rcases hbad with hv | ⟨hp, hf⟩
      · rw [classify_invalid_type _ resp hv]
        exact ⟨rfl, by decide⟩
      · by_cases hv : respTypeValid resp
        · rw [classify_bad_fields _ resp hv hp hf]
          exact ⟨rfl, by decide⟩
        · rw [classify_invalid_type _ resp hv]
          exact ⟨rfl, by decide⟩
  · intro resp hd hv hok
    rw [hd, classify_ok _ resp hv hok]
    refine ⟨rfl, ?_⟩
    simp only [beq_iff_eq]

/-- C1 (witness): the characterization applied to a concrete matched
`ACK` exchange, giving a `true` return. -/

theorem rdm_send_request_ack_witness :
    (rdm_send_request 5 reqW1 envW1).retval = true := by
  have h := (rdm_send_request_ack_characterization 5 reqW1 envW1 rfl rfl (by decide)
    (Or.inl rfl) (by decide)).1
  refine h.mpr ⟨respW1, rfl, rfl, Or.inr ?_⟩
  unfold respFieldsMatch
  refine ⟨?_, ?_, ?_, ?_, ?_⟩ <;> decide

/-- C1 (counterexample to the claim as stated): a received response that
matches the request in every field but carries type `ACK_TIMER` fails the
claim's "response type is ACK" check, yet the code stores `ACK_TIMER` in
`ack.type` — not `RDM_RESPONSE_TYPE_INVALID` as the claim's "any failed
check yields ack.type = INVALID" asserts — while returning `false`. -/

theorem rdm_send_request_ack_timer_not_invalid :
    (rdm_send_request 5 reqW1 envX1).retval = false ∧
    (rdm_send_request 5 reqW1 envX1).ackType = some RDM_RESPONSE_TYPE_ACK_TIMER ∧
    RDM_RESPONSE_TYPE_ACK_TIMER ≠ RDM_RESPONSE_TYPE_INVALID ∧
    respX1.response_type ≠ RDM_RESPONSE_TYPE_ACK := by
  refine ⟨by decide, by decide, by decide, by decide⟩

lemma tnAfter_of_ok (tn0 : Nat) (req0 : RdmHeader) (env : SendEnv)
    (hm : env.mutexOk = true) (hw : env.waitSentOk = true) :
    (rdm_send_request tn0 req0 env).tnAfter = (tn0 + 1) % 256 ∧
    (rdm_send_request tn0 req0 env).headerTn = tn0 ∧
    (rdm_send_request tn0 req0 env).placed = true := by
  unfold rdm_send_request
  rw [if_pos hm, if_pos hw]
  split_ifs <;> exact ⟨rfl, rfl, rfl⟩

/-- C3: whenever a controller request is actually placed on the wire (the
mutex take and `dmx_wait_sent` succeed), the header is stamped with the
port's stored transaction number and the stored number becomes
`(tn + 1) % 256`; consequently over any sequence of such sends the stored
number is the initial number plus the count of sends, modulo 256 — it
advances by exactly one per send and never regresses. -/

theorem tn_increment_mod256 (tn0 : Nat) (req0 : RdmHeader) (env : SendEnv)
    (hm : env.mutexOk = true) (hw : env.waitSentOk = true) :
    ((rdm_send_request tn0 req0 env).placed = true ∧
      (rdm_send_request tn0 req0 env).headerTn = tn0 ∧
      (rdm_send_request tn0 req0 env).tnAfter = (tn0 + 1) % 256) ∧
    (∀ steps : List (RdmHeader × SendEnv),
      (∀ s ∈ steps, s.2.mutexOk = true ∧ s.2.waitSentOk = true) → tn0 < 256 →
      runSends tn0 steps = (tn0 + steps.length) % 256) := by
  constructor
  · have h := tnAfter_of_ok tn0 req0 env hm hw
    exact ⟨h.2.2, h.2.1, h.1⟩
  · intro steps
    induction steps generalizing tn0 with
    | nil =>
      intro _ h256
      simp only [runSends, List.foldl_nil, List.length_nil, Nat.add_zero]
      exact (Nat.mod_eq_of_lt h256).symm
    | cons s rest ih =>
      intro hall h256
      have hs := hall s (List.mem_cons_self s rest)
      have h1 := tnAfter_of_ok tn0 s.1 s.2 hs.1 hs.2
      have hrest : ∀ x ∈ rest, x.2.mutexOk = true ∧ x.2.waitSentOk = true :=
        fun x hx => hall x (List.mem_cons_of_mem s hx)
      have step : runSends tn0 (s :: rest) = runSends ((rdm_send_request tn0 s.1 s.2).tnAfter) rest := rfl
      rw [step, h1.1, ih ((tn0 + 1) % 256) hrest (Nat.mod_lt _ (by norm_num))]
      simp only [List.length_cons]
      omega

/-- C3 (witness): one send from stored number 255 wraps the counter to 0
while stamping 255 into the header, and two consecutive sends starting
from 7 leave the stored number at 9. -/

theorem tn_increment_mod256_witness :
    (rdm_send_request 255 reqW1 envW1).headerTn = 255 ∧
    (rdm_send_request 255 reqW1 envW1).tnAfter = 0 ∧
    runSends 7 [(reqW1, envW1), (reqW1, envW1)] = 9 := by
  have h := tn_increment_mod256 255 reqW1 envW1 rfl rfl
  have h7 := tn_increment_mod256 7 reqW1 envW1 rfl rfl
  refine ⟨h.1.2.1, ?_, ?_⟩
  · have h2 := h.1.2.2
    simpa using h2
  · have hall : ∀ s ∈ [(reqW1, envW1), (reqW1, envW1)],
        s.2.mutexOk = true ∧ s.2.waitSentOk = true := by
      intro s hs
      simp only [List.mem_cons, List.not_mem_nil, or_false] at hs
      rcases hs with rfl | rfl <;> exact ⟨rfl, rfl⟩
    have h2 := h7.2 [(reqW1, envW1), (reqW1, envW1)] hall (by norm_num)
    simpa using h2

/-- C4: when the send proceeds (mutex and `dmx_wait_sent` succeed), a
response is awaited iff the destination UID is unicast (not a broadcast)
or the request is a `DISC_UNIQUE_BRANCH` discovery command; in every
other case the function returns `false` after the send completes with
`ack.type = RDM_RESPONSE_TYPE_NONE`. -/

theorem send_request_awaited_iff (tn0 : Nat) (req0 : RdmHeader) (env : SendEnv)
    (hm : env.mutexOk = true) (hw : env.waitSentOk = true) :
    ((rdm_send_request tn0 req0 env).awaited = true ↔
      (rdm_uid_is_broadcast (fixupHeader tn0 env req0).dest_uid = false ∨
        ((fixupHeader tn0 env req0).pid = RDM_PID_DISC_UNIQUE_BRANCH ∧
          (fixupHeader tn0 env req0).cc = RDM_CC_DISC_COMMAND))) ∧
    ((rdm_send_request tn0 req0 env).awaited = false →
      (rdm_send_request tn0 req0 env).retval = false ∧
      (rdm_send_request tn0 req0 env).ackType = some RDM_RESPONSE_TYPE_NONE) := by
  unfold rdm_send_request
  rw [if_pos hm, if_pos hw]
  by_cases hexp : responseExpected (fixupHeader tn0 env req0) = true
  · rw [if_pos hexp]
    have hRHS := (responseExpected_iff _).mp hexp
    constructor
    · split_ifs <;> exact iff_of_true rfl hRHS
    · split_ifs <;> exact fun hfalse => nomatch hfalse
  · rw [if_neg hexp]
    constructor
    · have hRHS : ¬(rdm_uid_is_broadcast (fixupHeader tn0 env req0).dest_uid = false ∨
          ((fixupHeader tn0 env req0).pid = RDM_PID_DISC_UNIQUE_BRANCH ∧
            (fixupHeader tn0 env req0).cc = RDM_CC_DISC_COMMAND)) :=
        fun hx => hexp ((responseExpected_iff _).mpr hx)
      exact iff_of_false (fun hfalse => nomatch hfalse) hRHS
    · intro _
      exact ⟨rfl, rfl⟩

/-- C4 (witness): broadcasting a `GET` awaits no response and reports
`ack.type = NONE` with a `false` return. -/

theorem send_request_awaited_iff_witness :
    (rdm_send_request 5 reqW4 envW1).awaited = false ∧
    (rdm_send_request 5 reqW4 envW1).retval = false ∧
    (rdm_send_request 5 reqW4 envW1).ackType = some RDM_RESPONSE_TYPE_NONE := by
  have h := send_request_awaited_iff 5 reqW4 envW1 rfl rfl
  have hna : (rdm_send_request 5 reqW4 envW1).awaited = false := by decide
  exact ⟨hna, (h.2 hna).1, (h.2 hna).2⟩

/-- C8 (code bug): re-registering the already present PID `0x1234`
overwrites entry 0 in place and returns `true` as documented, but
`rdm_register_parameter` increments `num_rdm_cbs` unconditionally
(part_001 line 308), so the entry count grows from 1 to 2 instead of
staying unchanged as the claim (and the header's "callbacks may be
overwritten, but they may not be deleted" contract) requires. -/

theorem register_parameter_increments_on_overwrite :
    (rdm_register_parameter tableA RDM_SUB_DEVICE_ROOT entryB).1 = true ∧
    ((rdm_register_parameter tableA RDM_SUB_DEVICE_ROOT entryB).2).num = 2 ∧
    ((rdm_register_parameter tableA RDM_SUB_DEVICE_ROOT entryB).2).cbs 0 = entryB ∧
    tableA.num = 1 := by
  refine ⟨by decide, by decide, by decide, rfl⟩

/-- C9: for every port table and every PID not present among the
registered entries, `rdm_get_parameter` returns `false` and leaves the
caller's output buffer and size cell completely unchanged. -/

theorem get_parameter_unregistered_unchanged (t : DriverTable) (pid : Nat)
    (param : List Nat) (size : Nat)
    (h : ∀ i < t.num, (t.cbs i).pid ≠ pid) :
    rdm_get_parameter t pid param size = (false, param, size) := by
  unfold rdm_get_parameter
  have hf : (List.range t.num).find? (fun i => (t.cbs i).pid == pid) = none := by
    rw [List.find?_eq_none]
    intro x hx
    have hne := h x (List.mem_range.mp hx)
    simp [hne]
  rw [hf]
  rfl

/-- C9 (witness): the theorem applied to the one-entry table `tableA` and
the unregistered PID `0x99`. -/

theorem get_parameter_unregistered_unchanged_witness :
    rdm_get_parameter tableA 0x99 [7, 7, 7] 3 = (false, [7, 7, 7], 3) :=
  get_parameter_unregistered_unchanged tableA 0x99 [7, 7, 7] 3 (by decide)

lemma allocMany_bound : ∀ (sizes : List Nat) (st : PdState),
    st.pd_head ≤ st.pd_size →
    (rdm_pd_allocMany st sizes).pd_head ≤ st.pd_size ∧
    (rdm_pd_allocMany st sizes).pd_size = st.pd_size := by
  intro sizes
  induction sizes with
  | nil => exact fun st h => ⟨h, rfl⟩
  | cons sz rest ih =>
    intro st h
    have h2 : ((rdm_pd_alloc st sz).2).pd_head ≤ st.pd_size ∧
        ((rdm_pd_alloc st sz).2).pd_size = st.pd_size := by
      unfold rdm_pd_alloc
      by_cases h0 : sz = 0
      · rw [if_pos h0]
        exact ⟨h, rfl⟩
      · rw [if_neg h0]
        by_cases hle : (st.pd_head + sz) % SIZE_T_MOD ≤ st.pd_size
        · rw [if_pos hle]
          exact ⟨hle, rfl⟩
        · rw [if_neg hle]
          exact ⟨h, rfl⟩
    have hstep : rdm_pd_allocMany st (sz :: rest) =
        rdm_pd_allocMany (rdm_pd_alloc st sz).2 rest := rfl
    have h3 := ih (rdm_pd_alloc st sz).2 (by rw [h2.2]; exact h2.1)
    rw [hstep]
    refine ⟨?_, ?_⟩
    · have hx := h3.1
      rw [h2.2] at hx
      exact hx
    · have hx := h3.2
      rw [h2.2] at hx
      exact hx

/-- C10 (counterexample to the claim as stated): `pd_head + size` is
32-bit `size_t` arithmetic, so with `pd_head = 64`, `pd_size = 64` and
`size = 2^32 - 32` the sum wraps to 32, the guard passes, and the
allocation succeeds (advancing `pd_head` to 32) even though the
mathematical sum `pd_head + size` exceeds `pd_size`, where the claim
demands NULL. -/

theorem pd_alloc_wraparound_counterexample :
    (rdm_pd_alloc ⟨64, 64⟩ 4294967264).1 = some 64 ∧
    (rdm_pd_alloc ⟨64, 64⟩ 4294967264).2.pd_head = 32 ∧
    64 + 4294967264 > 64 ∧ (4294967264 : Nat) ≠ 0 := by
  refine ⟨by decide, by decide, by decide, by decide⟩

/-- C10 (amended): `rdm_pd_alloc` returns NULL exactly when the requested
size is zero or when `(pd_head + size) mod 2^32` exceeds `pd_size`;
otherwise it returns the region at the current bump offset and advances
`pd_head` to `(pd_head + size) mod 2^32`; and across any sequence of
allocations starting with `pd_head ≤ pd_size`, `pd_head` never exceeds
`pd_size` (which never changes). -/

theorem pd_alloc_characterization (st : PdState) (size : Nat)
    (h : st.pd_head ≤ st.pd_size) :
    ((rdm_pd_alloc st size).1 = none ↔
      size = 0 ∨ st.pd_size < (st.pd_head + size) % SIZE_T_MOD) ∧
    (size ≠ 0 → (st.pd_head + size) % SIZE_T_MOD ≤ st.pd_size →
      rdm_pd_alloc st size =
        (some st.pd_head, ⟨(st.pd_head + size) % SIZE_T_MOD, st.pd_size⟩)) ∧
    (∀ sizes : List Nat, (rdm_pd_allocMany st sizes).pd_head ≤ st.pd_size ∧
      (rdm_pd_allocMany st sizes).pd_size = st.pd_size) := by
  refine ⟨?_, ?_, fun sizes => allocMany_bound sizes st h⟩
  · unfold rdm_pd_alloc
    by_cases h0 : size = 0
    · rw [if_pos h0]
      simp [h0]
    · rw [if_neg h0]
      by_cases hle : (st.pd_head + size) % SIZE_T_MOD ≤ st.pd_size
      · rw [if_pos hle]
        simp only [h0, false_or]
        constructor
        · intro hx
          exact absurd hx (by simp)
        · intro hx
          omega
      · rw [if_neg hle]
        simp only [h0, false_or]
        constructor
        · intro _
          omega
        · intro _
          trivial
  · intro h0 hle
    unfold rdm_pd_alloc
    rw [if_neg h0, if_pos hle]

/-- C10 (witness): a zero-head region of capacity 100 serves a 40-byte
allocation at offset 0, and three successive 40-byte requests never push
`pd_head` past the capacity. -/

theorem pd_alloc_characterization_witness :
    rdm_pd_alloc ⟨0, 100⟩ 40 = (some 0, ⟨40, 100⟩) ∧
    (rdm_pd_allocMany ⟨0, 100⟩ [40, 40, 40]).pd_head ≤ 100 := by
  have h := pd_alloc_characterization ⟨0, 100⟩ 40 (by norm_num)
  refine ⟨?_, (h.2.2 [40, 40, 40]).1⟩
  have h2 := h.2.1 (by norm_num) (by decide)
  simpa [SIZE_T_MOD] using h2

lemma parse_go_eq_b {c : Char} (h : c = 'b' ∨ c = 'B') (fuel : Nat) (rest : List Char)
    (acc : Nat) (single : Bool) :
    rdm_param_parse_go (fuel + 1) (c :: rest) acc single =
      if acc + 1 > 231 then ((0 : Int), single)
      else rdm_param_parse_go fuel rest (acc + 1) single := by
  rcases h with rfl | rfl <;> rfl

lemma parse_go_eq_w {c : Char} (h : c = 'w' ∨ c = 'W') (fuel : Nat) (rest : List Char)
    (acc : Nat) (single : Bool) :
    rdm_param_parse_go (fuel + 1) (c :: rest) acc single =
      if acc + 2 > 231 then ((0 : Int), single)
      else rdm_param_parse_go fuel rest (acc + 2) single := by
  rcases h with rfl | rfl <;> rfl

lemma parse_go_eq_d {c : Char} (h : c = 'd' ∨ c = 'D') (fuel : Nat) (rest : List Char)
    (acc : Nat) (single : Bool) :
    rdm_param_parse_go (fuel + 1) (c :: rest) acc single =
      if acc + 4 > 231 then ((0 : Int), single)
      else rdm_param_parse_go fuel rest (acc + 4) single := by
  rcases h with rfl | rfl <;> rfl

lemma parse_go_eq_u {c : Char} (h : c = 'u' ∨ c = 'U') (fuel : Nat) (rest : List Char)
    (acc : Nat) (single : Bool) :
    rdm_param_parse_go (fuel + 1) (c :: rest) acc single =
      if acc + 6 > 231 then ((0 : Int), single)
      else rdm_param_parse_go fuel rest (acc + 6) single := by
  rcases h with rfl | rfl <;> rfl

lemma parse_go_eq_v {c : Char} (h : c = 'v' ∨ c = 'V') (fuel : Nat) (rest : List Char)
    (acc : Nat) (single : Bool) :
    rdm_param_parse_go (fuel + 1) (c :: rest) acc single =
      if rest ≠ [] ∧ rest.headD ' ' ≠ '$' then ((0 : Int), single)
      else if acc + 6 > 231 then ((0 : Int), true)
      else rdm_param_parse_go fuel rest (acc + 6) true := by
  rcases h with rfl | rfl <;> rfl

lemma parse_go_eq_a {c : Char} (h : c = 'a' ∨ c = 'A') (fuel : Nat) (rest : List Char)
    (acc : Nat) (single : Bool) :
    rdm_param_parse_go (fuel + 1) (c :: rest) acc single =
      if rest ≠ [] ∧ rest.headD ' ' ≠ '$' then ((-1 : Int), single)
      else if acc + 32 > 231 then ((0 : Int), true)
      else rdm_param_parse_go fuel rest (acc + 32) true := by
  rcases h with rfl | rfl <;> rfl

lemma parse_go_eq_hash (fuel : Nat) (rest : List Char) (acc : Nat) (single : Bool) :
    rdm_param_parse_go (fuel + 1) ('#' :: rest) acc single =
      if 17 ≤ (rest.takeWhile isHexChar).length then ((0 : Int), single)
      else if (rest.drop (rest.takeWhile isHexChar).length).headD ' ' = 'h' ∨
          (rest.drop (rest.takeWhile isHexChar).length).headD ' ' = 'H' then
        if acc + ((rest.takeWhile isHexChar).length / 2 +
            (rest.takeWhile isHexChar).length % 2) > 231 then ((0 : Int), single)
        else rdm_param_parse_go fuel (rest.drop (rest.takeWhile isHexChar).length).tail
          (acc + ((rest.takeWhile isHexChar).length / 2 +
            (rest.takeWhile isHexChar).length % 2)) single
      else ((0 : Int), single) := rfl

lemma parse_go_eq_dollar (fuel : Nat) (rest : List Char) (acc : Nat) (single : Bool) :
    rdm_param_parse_go (fuel + 1) ('$' :: rest) acc single =
      if rest ≠ [] then ((0 : Int), single)
      else if acc + 0 > 231 then ((0 : Int), true)
      else rdm_param_parse_go fuel rest acc true := rfl

lemma parse_go_eq_other {c : Char} (h1 : ¬(c = 'b' ∨ c = 'B')) (h2 : ¬(c = 'w' ∨ c = 'W'))
    (h3 : ¬(c = 'd' ∨ c = 'D')) (h4 : ¬(c = 'u' ∨ c = 'U')) (h5 : ¬(c = 'v' ∨ c = 'V'))
    (h6 : ¬(c = 'a' ∨ c = 'A')) (h7 : ¬c = '#') (h8 : ¬c = '$')
    (fuel : Nat) (rest : List Char) (acc : Nat) (single : Bool) :
    rdm_param_parse_go (fuel + 1) (c :: rest) acc single = ((0 : Int), single) := by
  have e : rdm_param_parse_go (fuel + 1) (c :: rest) acc single =
      parseStep (fun r a s => rdm_param_parse_go fuel r a s) c rest acc single := rfl
  rw [e]
  unfold parseStep
  rw [if_neg h1, if_neg h2, if_neg h3, if_neg h4, if_neg h5, if_neg h6, if_neg h7, if_neg h8]

lemma emplace_go_eq_b {c : Char} (h : c = 'b' ∨ c = 'B') (fuel : Nat) (rest : List Char)
    (src : List Nat) (num : Nat) (nulls : Bool) (n : Nat) :
    rdm_pd_emplace_go (fuel + 1) (c :: rest) src num nulls n =
      rdm_pd_emplace_go fuel rest src num nulls (n + 1) := by
  rcases h with rfl | rfl <;> rfl

lemma emplace_go_eq_w {c : Char} (h : c = 'w' ∨ c = 'W') (fuel : Nat) (rest : List Char)
    (src : List Nat) (num : Nat) (nulls : Bool) (n : Nat) :
    rdm_pd_emplace_go (fuel + 1) (c :: rest) src num nulls n =
      rdm_pd_emplace_go fuel rest src num nulls (n + 2) := by
  rcases h with rfl | rfl <;> rfl

lemma emplace_go_eq_d {c : Char} (h : c = 'd' ∨ c = 'D') (fuel : Nat) (rest : List Char)
    (src : List Nat) (num : Nat) (nulls : Bool) (n : Nat) :
    rdm_pd_emplace_go (fuel + 1) (c :: rest) src num nulls n =
      rdm_pd_emplace_go fuel rest src num nulls (n + 4) := by
  rcases h with rfl | rfl <;> rfl

lemma emplace_go_eq_u {c : Char} (h : c = 'u' ∨ c = 'U') (fuel : Nat) (rest : List Char)
    (src : List Nat) (num : Nat) (nulls : Bool) (n : Nat) :
    rdm_pd_emplace_go (fuel + 1) (c :: rest) src num nulls n =
      rdm_pd_emplace_go fuel rest src num nulls (n + 6) := by
  rcases h with rfl | rfl <;> rfl

lemma emplace_go_v_skip {c : Char} (h : c = 'v' ∨ c = 'V') (fuel : Nat) (rest : List Char)
    (src : List Nat) (num : Nat) (nulls : Bool) (n : Nat)
    (hn : nulls = false) (hu : uidIsNullAt src n = true) :
    rdm_pd_emplace_go (fuel + 1) (c :: rest) src num nulls n = n := by
  rcases h with rfl | rfl
  · show (if (('v' : Char) = 'v' ∨ ('v' : Char) = 'V') ∧ nulls = false ∧
        uidIsNullAt src n = true then n
        else rdm_pd_emplace_go fuel rest src num nulls (n + 6)) = n
    rw [if_pos ⟨Or.inl rfl, hn, hu⟩]
  · show (if (('V' : Char) = 'v' ∨ ('V' : Char) = 'V') ∧ nulls = false ∧
        uidIsNullAt src n = true then n
        else rdm_pd_emplace_go fuel rest src num nulls (n + 6)) = n
    rw [if_pos ⟨Or.inr rfl, hn, hu⟩]

lemma emplace_go_v_go {c : Char} (h : c = 'v' ∨ c = 'V') (fuel : Nat) (rest : List Char)
    (src : List Nat) (num : Nat) (nulls : Bool) (n : Nat)
    (hcon : ¬(nulls = false ∧ uidIsNullAt src n = true)) :
    rdm_pd_emplace_go (fuel + 1) (c :: rest) src num nulls n =
      rdm_pd_emplace_go fuel rest src num nulls (n + 6) := by
  rcases h with rfl | rfl
  · show (if (('v' : Char) = 'v' ∨ ('v' : Char) = 'V') ∧ nulls = false ∧
        uidIsNullAt src n = true then n
        else rdm_pd_emplace_go fuel rest src num nulls (n + 6)) =
      rdm_pd_emplace_go fuel rest src num nulls (n + 6)
    rw [if_neg (fun hx => hcon ⟨hx.2.1, hx.2.2⟩)]
  · show (if (('V' : Char) = 'v' ∨ ('V' : Char) = 'V') ∧ nulls = false ∧
        uidIsNullAt src n = true then n
        else rdm_pd_emplace_go fuel rest src num nulls (n + 6)) =
      rdm_pd_emplace_go fuel rest src num nulls (n + 6)
    rw [if_neg (fun hx => hcon ⟨hx.2.1, hx.2.2⟩)]

lemma emplace_go_eq_a {c : Char} (h : c = 'a' ∨ c = 'A') (fuel : Nat) (rest : List Char)
    (src : List Nat) (num : Nat) (nulls : Bool) (n : Nat) :
    rdm_pd_emplace_go (fuel + 1) (c :: rest) src num nulls n =
      n + strnlenList (src.drop n)
        (if (num + SIZE_T_MOD - n) % SIZE_T_MOD < 32
          then (num + SIZE_T_MOD - n) % SIZE_T_MOD else 32) +
        (if nulls then 1 else 0) := by
  rcases h with rfl | rfl <;> rfl

lemma emplace_go_eq_hash (fuel : Nat) (rest : List Char) (src : List Nat) (num : Nat)
    (nulls : Bool) (n : Nat) :
    rdm_pd_emplace_go (fuel + 1) ('#' :: rest) src num nulls n =
      rdm_pd_emplace_go fuel ((rest.drop (rest.takeWhile isHexChar).length).drop 1) src num nulls
        (n + ((rest.takeWhile isHexChar).length / 2 +
          (rest.takeWhile isHexChar).length % 2)) := rfl

lemma emplace_go_eq_other {c : Char} (h1 : ¬(c = 'b' ∨ c = 'B')) (h2 : ¬(c = 'w' ∨ c = 'W'))
    (h3 : ¬(c = 'd' ∨ c = 'D')) (h4 : ¬(c = 'u' ∨ c = 'U')) (h5 : ¬(c = 'v' ∨ c = 'V'))
    (h6 : ¬(c = 'a' ∨ c = 'A')) (h7 : ¬c = '#')
    (fuel : Nat) (rest : List Char) (src : List Nat) (num : Nat) (nulls : Bool) (n : Nat) :
    rdm_pd_emplace_go (fuel + 1) (c :: rest) src num nulls n =
      rdm_pd_emplace_go fuel rest src num nulls n := by
  have h45 : ¬(c = 'u' ∨ c = 'U' ∨ c = 'v' ∨ c = 'V') := by
    rintro (hx | hx | hx | hx)
    · exact h4 (Or.inl hx)
    · exact h4 (Or.inr hx)
    · exact h5 (Or.inl hx)
    · exact h5 (Or.inr hx)
  have e : rdm_pd_emplace_go (fuel + 1) (c :: rest) src num nulls n =
      emplaceStep (fun r m => rdm_pd_emplace_go fuel r src num nulls m) c rest src num nulls n := rfl
  rw [e]
  unfold emplaceStep
  rw [if_neg h1, if_neg h2, if_neg h3, if_neg h45, if_neg h6, if_neg h7]

lemma key_plain_aux (fuel : Nat) (ih : KeyProp fuel) (rest : List Char) (k : Nat)
    (acc : Nat) (single : Bool) (sz : Int) (sgl : Bool)
    (hlen : rest.length < fuel)
    (hp : (if acc + k > 231 then ((0 : Int), single)
      else rdm_param_parse_go fuel rest (acc + k) single) = (sz, sgl))
    (h1 : 1 ≤ sz) (hacc : acc ≤ 231) :
    ((acc : Int) ≤ sz ∧ sz ≤ 231) ∧
    (single = true → sgl = true) ∧
    (∀ src num nulls n, rdm_pd_emplace_go fuel rest src num nulls (n + k) ≤
      n + (sz.toNat - acc) + (if nulls then 1 else 0)) ∧
    (sgl = false → ∀ src num nulls n,
      rdm_pd_emplace_go fuel rest src num nulls (n + k) = n + (sz.toNat - acc)) := by
  by_cases hov : acc + k > 231
  · rw [if_pos hov] at hp
    injection hp with e1 e2
    exact absurd h1 (by omega)
  · rw [if_neg hov] at hp
    obtain ⟨⟨ha1, ha2⟩, hs, hle, hex⟩ := ih rest (acc + k) single sz sgl hlen hp h1 (by omega)
    refine ⟨⟨by omega, ha2⟩, hs, ?_, ?_⟩
    · intro src num nulls n
      have hx := hle src num nulls (n + k)
      omega
    · intro hsgl src num nulls n
      have hx := hex hsgl src num nulls (n + k)
      omega

lemma length_takeWhile_le {α : Type} (p : α → Bool) : ∀ l : List α,
    (l.takeWhile p).length ≤ l.length := by
  intro l
  induction l with
  | nil => simp [List.takeWhile]
  | cons a t ih =>
    by_cases hp : p a
    · simp only [List.takeWhile_cons, hp, if_true, List.length_cons]
      omega
    · simp [List.takeWhile_cons, hp]

lemma strnlenList_le (l : List Nat) (m : Nat) : strnlenList l m ≤ m := by
  unfold strnlenList
  calc ((l.take m).takeWhile (fun b => b ≠ 0)).length ≤ (l.take m).length :=
        length_takeWhile_le _ _
  _ ≤ m := by
        rw [List.length_take]
        exact Nat.min_le_left _ _

lemma key_step : ∀ fuel, KeyProp fuel := by
  intro fuel
  induction fuel with
  | zero =>
    intro fmt acc single sz sgl hlen
    exact absurd hlen (Nat.not_lt_zero _)
  | succ fuel ih =>
    intro fmt acc single sz sgl hlen hp h1 hacc
    cases fmt with
    | nil =>
      have hp' : ((acc : Int), single) = (sz, sgl) := hp
      injection hp' with e1 e2
      subst e1
      subst e2
      refine ⟨⟨le_refl _, by omega⟩, fun hs => hs, ?_, ?_⟩
      · intro src num nulls n
        have e : rdm_pd_emplace_go (fuel + 1) ([] : List Char) src num nulls n = n := rfl
        rw [e]
        omega
      · intro _ src num nulls n
        have e : rdm_pd_emplace_go (fuel + 1) ([] : List Char) src num nulls n = n := rfl
        rw [e]
        omega
    | cons c rest =>
      have hlen' : rest.length < fuel := by
        simp only [List.length_cons] at hlen
        omega
      by_cases hb : c = 'b' ∨ c = 'B'
      · rw [parse_go_eq_b hb] at hp
        have aux := key_plain_aux fuel ih rest 1 acc single sz sgl hlen' hp h1 hacc
        refine ⟨aux.1, aux.2.1, ?_, ?_⟩
        · intro src num nulls n
          rw [emplace_go_eq_b hb]
          exact aux.2.2.1 src num nulls n
        · intro hsgl src num nulls n
          rw [emplace_go_eq_b hb]
          exact aux.2.2.2 hsgl src num nulls n
      by_cases hw : c = 'w' ∨ c = 'W'
      · rw [parse_go_eq_w hw] at hp
        have aux := key_plain_aux fuel ih rest 2 acc single sz sgl hlen' hp h1 hacc
        refine ⟨aux.1, aux.2.1, ?_, ?_⟩
        · intro src num nulls n
          rw [emplace_go_eq_w hw]
          exact aux.2.2.1 src num nulls n
        · intro hsgl src num nulls n
          rw [emplace_go_eq_w hw]
          exact aux.2.2.2 hsgl src num nulls n
      by_cases hd : c = 'd' ∨ c = 'D'
      · rw [parse_go_eq_d hd] at hp
        have aux := key_plain_aux fuel ih rest 4 acc single sz sgl hlen' hp h1 hacc
        refine ⟨aux.1, aux.2.1, ?_, ?_⟩
        · intro src num nulls n
          rw [emplace_go_eq_d hd]
          exact aux.2.2.1 src num nulls n
        · intro hsgl src num nulls n
          rw [emplace_go_eq_d hd]
          exact aux.2.2.2 hsgl src num nulls n
      by_cases hu : c = 'u' ∨ c = 'U'
      · rw [parse_go_eq_u hu] at hp
        have aux := key_plain_aux fuel ih rest 6 acc single sz sgl hlen' hp h1 hacc
        refine ⟨aux.1, aux.2.1, ?_, ?_⟩
        · intro src num nulls n
          rw [emplace_go_eq_u hu]
          exact aux.2.2.1 src num nulls n
        · intro hsgl src num nulls n
          rw [emplace_go_eq_u hu]
          exact aux.2.2.2 hsgl src num nulls n
      by_cases hv : c = 'v' ∨ c = 'V'
      · rw [parse_go_eq_v hv] at hp
        by_cases herr : rest ≠ [] ∧ rest.headD ' ' ≠ '$'
        · rw [if_pos herr] at hp
          injection hp with e1 e2
          exact absurd h1 (by omega)
        · rw [if_neg herr] at hp
          by_cases hov : acc + 6 > 231
          · rw [if_pos hov] at hp
            injection hp with e1 e2
            exact absurd h1 (by omega)
          · rw [if_neg hov] at hp
            obtain ⟨⟨ha1, ha2⟩, hs, hle, hex⟩ :=
              ih rest (acc + 6) true sz sgl hlen' hp h1 (by omega)
            have hsgl1 : sgl = true := hs rfl
            refine ⟨⟨by omega, ha2⟩, fun _ => hsgl1, ?_, ?_⟩
            · intro src num nulls n
              by_cases hskip : nulls = false ∧ uidIsNullAt src n = true
              · rw [emplace_go_v_skip hv fuel rest src num nulls n hskip.1 hskip.2]
                omega
              · rw [emplace_go_v_go hv fuel rest src num nulls n hskip]
                have hx := hle src num nulls (n + 6)
                omega
            · intro hsgl
              rw [hsgl1] at hsgl
              exact absurd hsgl (by decide)
      by_cases ha : c = 'a' ∨ c = 'A'
      · rw [parse_go_eq_a ha] at hp
        by_cases herr : rest ≠ [] ∧ rest.headD ' ' ≠ '$'
        · rw [if_pos herr] at hp
          injection hp with e1 e2
          exact absurd h1 (by omega)
        · rw [if_neg herr] at hp
          by_cases hov : acc + 32 > 231
          · rw [if_pos hov] at hp
            injection hp with e1 e2
            exact absurd h1 (by omega)
          · rw [if_neg hov] at hp
            obtain ⟨⟨ha1, ha2⟩, hs, hle, hex⟩ :=
              ih rest (acc + 32) true sz sgl hlen' hp h1 (by omega)
            have hsgl1 : sgl = true := hs rfl
            refine ⟨⟨by omega, ha2⟩, fun _ => hsgl1, ?_, ?_⟩
            · intro src num nulls n
              rw [emplace_go_eq_a ha]
              have hl32 : strnlenList (src.drop n)
                  (if (num + SIZE_T_MOD - n) % SIZE_T_MOD < 32
                    then (num + SIZE_T_MOD - n) % SIZE_T_MOD else 32) ≤ 32 := by
                by_cases hq : (num + SIZE_T_MOD - n) % SIZE_T_MOD < 32
                · rw [if_pos hq]
                  exact le_trans (strnlenList_le _ _) (by omega)
                · rw [if_neg hq]
                  exact strnlenList_le _ _
              omega
            · intro hsgl
              rw [hsgl1] at hsgl
              exact absurd hsgl (by decide)
      by_cases hh : c = '#'
      · subst hh
        rw [parse_go_eq_hash] at hp
        by_cases h17 : 17 ≤ (rest.takeWhile isHexChar).length
        · rw [if_pos h17] at hp
          injection hp with e1 e2
          exact absurd h1 (by omega)
        · rw [if_neg h17] at hp
          by_cases hterm : (rest.drop (rest.takeWhile isHexChar).length).headD ' ' = 'h' ∨
              (rest.drop (rest.takeWhile isHexChar).length).headD ' ' = 'H'
          · rw [if_pos hterm] at hp
            have hlen2 : ((rest.drop (rest.takeWhile isHexChar).length).tail).length < fuel := by
              rw [List.length_tail, List.length_drop]
              omega
            have aux := key_plain_aux fuel ih
              ((rest.drop (rest.takeWhile isHexChar).length).tail)
              ((rest.takeWhile isHexChar).length / 2 + (rest.takeWhile isHexChar).length % 2)
              acc single sz sgl hlen2 hp h1 hacc
            refine ⟨aux.1, aux.2.1, ?_, ?_⟩
            · intro src num nulls n
              rw [emplace_go_eq_hash, List.drop_one]
              exact aux.2.2.1 src num nulls n
            · intro hsgl src num nulls n
              rw [emplace_go_eq_hash, List.drop_one]
              exact aux.2.2.2 hsgl src num nulls n
          · rw [if_neg hterm] at hp
            injection hp with e1 e2
            exact absurd h1 (by omega)
      by_cases hdol : c = '$'
      · subst hdol
        rw [parse_go_eq_dollar] at hp
        by_cases hne : rest ≠ []
        · rw [if_pos hne] at hp
          injection hp with e1 e2
          exact absurd h1 (by omega)
        · rw [if_neg hne] at hp
          have hrest : rest = [] := not_not.mp hne
          subst hrest
          by_cases hov : acc + 0 > 231
          · rw [if_pos hov] at hp
            injection hp with e1 e2
            exact absurd h1 (by omega)
          · rw [if_neg hov] at hp
            have hp' : ((acc : Int), true) = (sz, sgl) := by
              rw [← hp]
              cases fuel <;> rfl
            injection hp' with e1 e2
            subst e1
            refine ⟨⟨le_refl _, by omega⟩, fun _ => e2.symm, ?_, ?_⟩
            · intro src num nulls n
              rw [emplace_go_eq_other (by decide) (by decide) (by decide) (by decide)
                (by decide) (by decide) (by decide)]
              have e : rdm_pd_emplace_go fuel ([] : List Char) src num nulls n = n := by
                cases fuel <;> rfl
              rw [e]
              omega
            · intro hsgl
              rw [← e2] at hsgl
              exact absurd hsgl (by decide)
      · rw [parse_go_eq_other hb hw hd hu hv ha hh hdol] at hp
        injection hp with e1 e2
        exact absurd h1 (by omega)

lemma foldl_const_step (g : Nat → Nat) (c : Nat) (hg : ∀ n, g n = n + c) (k : Nat) :
    (List.range k).foldl (fun n (_ : Nat) => g n) 0 = k * c := by
  induction k with
  | zero => simp
  | succ k ih =>
    rw [List.range_succ, List.foldl_append]
    simp only [List.foldl_cons, List.foldl_nil]
    rw [ih, hg]
    ring

lemma pd_emplace_le_of_parse (format : List Char) (src : List Nat) (num : Nat) (nulls : Bool)
    (sz : Int) (sgl : Bool) (hps : rdm_param_parse format = (sz, sgl)) (h1 : 1 ≤ sz) :
    rdm_pd_emplace format src num nulls ≤ 232 := by
  have hp0 : rdm_param_parse_go (format.length + 1) format 0 format.isEmpty = (sz, sgl) := hps
  obtain ⟨⟨hA1, hA2⟩, hB, hC, hD⟩ :=
    key_step (format.length + 1) format 0 format.isEmpty sz sgl (by omega) hp0 h1 (by omega)
  unfold rdm_pd_emplace
  rw [if_neg (by rw [hps]; exact not_lt.mpr h1)]
  rw [hps]
  dsimp only
  by_cases hsg : sgl = true
  · rw [if_pos hsg]
    have e : List.range 1 = [0] := rfl
    rw [e]
    simp only [List.foldl_cons, List.foldl_nil]
    have hx := hC src (if num > 231 then 231 else num) nulls 0
    have hn1 : (if nulls then 1 else 0 : Nat) ≤ 1 := by split_ifs <;> omega
    omega
  · rw [if_neg hsg]
    have hsgf : sgl = false := by
      cases sgl
      · rfl
      · exact absurd rfl hsg
    have hex := hD hsgf
    have hstep : ∀ n, rdm_pd_emplace_go (format.length + 1) format src
        (if num > 231 then 231 else num) nulls n = n + sz.toNat := by
      intro n
      have hx := hex src (if num > 231 then 231 else num) nulls n
      omega
    rw [foldl_const_step _ sz.toNat hstep]
    have hnum : (if num > 231 then 231 else num) ≤ 231 := by split_ifs <;> omega
    calc (if num > 231 then 231 else num) / sz.toNat * sz.toNat ≤
        (if num > 231 then 231 else num) := Nat.div_mul_le_self _ _
    _ ≤ 232 := by omega

/-- C7 (amended): `rdm_pd_emplace` never reports more than 232 bytes
written — 231 plus at most one null terminator for a trailing ASCII field
with `emplace_nulls` — and an emplace whose format fails `rdm_param_parse`
(in particular one describing a parameter exceeding 231 bytes, which the
parser rejects at its `param_size + field_size > 231` guard) returns 0
having written nothing. -/

theorem pd_emplace_bounds (format : List Char) (src : List Nat) (num : Nat) (nulls : Bool) :
    rdm_pd_emplace format src num nulls ≤ 232 ∧
    ((rdm_param_parse format).1 < 1 → rdm_pd_emplace format src num nulls = 0) := by
  constructor
  · by_cases hlt : (rdm_param_parse format).1 < 1
    · unfold rdm_pd_emplace
      rw [if_pos hlt]
      omega
    · exact pd_emplace_le_of_parse format src num nulls (rdm_param_parse format).1
        (rdm_param_parse format).2 rfl (by omega)
  · intro h
    unfold rdm_pd_emplace
    rw [if_pos h]

/-- C7 (counterexample to the claim as stated): with the accepted format
`fmtCex`, 231 permitted bytes and `emplace_nulls = true`, the emplace
writes 199 bytes, a 32-byte string and its null terminator and reports
232 bytes written — more than the claimed 231-byte maximum. -/

theorem pd_emplace_232_counterexample :
    (rdm_param_parse fmtCex).1 = 231 ∧
    rdm_pd_emplace fmtCex srcCex 231 true = 232 ∧ 232 > 231 := by
  refine ⟨by decide, by decide, by decide⟩

/-- C7 (witness): the bound theorem applied to a rejected format (an
unknown character, parse result 0) and to the 232-byte emplace. -/

theorem pd_emplace_bounds_witness :
    (rdm_param_parse ['x']).1 < 1 ∧ rdm_pd_emplace ['x'] [] 0 false = 0 ∧
    rdm_pd_emplace fmtCex srcCex 231 true ≤ 232 :=
  ⟨by decide, (pd_emplace_bounds ['x'] [] 0 false).2 (by decide),
    (pd_emplace_bounds fmtCex srcCex 231 true).1⟩
